import Mathlib

/-!
# PSVR2 adapter driver: session lifecycle and sensor streaming

A shallow embedding of the kernel module under `src/kernel/module`
(`psvr2_adapter_main.c`, `psvr2_input.c`, `fixed/psvr2_display.c`) and of the
declarations of `src/kernel/include/psvr2/psvr2_adapter.h`.

Conventions of the embedding.

* C machine integers are `Fin 2^w` for the unsigned field types of the header
  (`uint8_t`, `uint16_t`, `uint32_t`), `Nat` for `unsigned int` values that only
  ever hold a byte, and `Int` for `int` return codes (which are only compared and
  passed on, never computed with).
* A pointer is `Option` of what it points to or of a handle; `none` is `NULL`.
  A function that dereferences a `NULL` pointer returns `none`.
* Every call into the kernel is appended to `Kernel.trace`; what the kernel
  answers (allocation results, transfer results) is an argument of the function
  that makes the call.
* Logging (`pr_info`, `pr_err`, the `*_dbg` macros) has no effect on the state and
  is left out.
-/

namespace PSVR2

/-! ## Machine integers and errno values -/

/-- The C type `uint8_t` / `unsigned char`. -/
abbrev u8 := Fin 256

/-- The C type `uint16_t`. -/
abbrev u16 := Fin 65536

/-- The C type `uint32_t`. -/
abbrev u32 := Fin 4294967296

/-- Conversion of an `int` value to `uint8_t` (reduction modulo 2^8). -/
def to_u8 (n : Nat) : u8 := ⟨n % 256, Nat.mod_lt n (by decide)⟩

/-- Conversion of an `int` value to `int16_t` (two's complement wrap-around). -/
def to_int16 (n : Int) : Int := (n + 32768) % 65536 - 32768

/-- Conversion of a non-negative `int` value to `uint32_t`. -/
def to_u32 (n : Nat) : u32 := ⟨n % 4294967296, Nat.mod_lt n (by decide)⟩

/-- Conversion of a `long` value to `int` (two's complement wrap-around). -/
def long_to_int (n : Int) : Int := (n + 2147483648) % 4294967296 - 2147483648

/-- Conversion of a `u32` to `int`, as when an `unsigned int` is passed for an
`int` parameter: values from 2^31 on become negative. -/
def u32_to_int (n : u32) : Int :=
  if n.val < 2147483648 then (n.val : Int) else (n.val : Int) - 4294967296

/-- Values of `errno-base.h` and `errno.h`; the driver returns them negated. -/
def ENOENT : Int := 2
def ENOMEM : Int := 12
def EFAULT : Int := 14
def ENODEV : Int := 19
def EINVAL : Int := 22
def ENOTTY : Int := 25
def ECONNRESET : Int := 104
def ESHUTDOWN : Int := 108

/-! ## `psvr2_adapter.h` -/

/-- Feature report sizes and commands. -/
def PSVR2_FEATURE_REPORT_SIZE : Nat := 64
def PSVR2_GET_STATUS : u8 := 0x01
def PSVR2_SET_DISPLAY_MODE : u8 := 0x02
def PSVR2_GET_VERSION : u8 := 0x03

/-- The ioctl number `_IOR('P', 1, struct psvr2_status)`; the structure is 8 bytes. -/
def PSVR2_IOCTL_GET_STATUS : Nat := 2 * 2 ^ 30 + 8 * 2 ^ 16 + 0x50 * 2 ^ 8 + 1

/-- The ioctl number `_IOW('P', 2, struct psvr2_mode)`; the structure is 6 bytes. -/
def PSVR2_IOCTL_SET_MODE : Nat := 1 * 2 ^ 30 + 6 * 2 ^ 16 + 0x50 * 2 ^ 8 + 2

/-- The ioctl number `_IO('P', 3)`. -/
def PSVR2_IOCTL_RESET : Nat := 0x50 * 2 ^ 8 + 3

/-- Device status struct. -/
structure psvr2_status where
  connected : u8
  display_active : u8
  tracking_active : u8
  error_code : u32

/-- Display mode struct. -/
structure psvr2_mode where
  width : u16
  height : u16
  refresh_rate : u8
  flags : u8

/-- A transfer buffer of `PSVR2_FEATURE_REPORT_SIZE` = 64 bytes. -/
abbrev Buffer := Fin 64 → u8

/-- The bytes `b[0] .. b[n-1]` handed to a transfer of length `n` (`n ≤ 64`). -/
def Buffer.payload (b : Buffer) (n : Nat) : List u8 :=
  (List.finRange 64).take n |>.map b

/-- Main device structure (the session). `addr` is the address of the structure,
which identifies the session; `udev` and `interface` are handles. The lock and
the character device are represented by the calls made on them. -/
structure psvr2_device where
  addr : Nat
  udev : Nat
  interface : Nat
  control_ep : Nat
  input_ep : Nat
  output_ep : Nat
  status : psvr2_status
  current_mode : psvr2_mode
  control_buffer : Buffer
  input_buffer : Buffer
  dev_num : Nat
  class_ptr : Int

/-! ## `psvr2_input.c`: data -/

/-- USB URB for tracking data: `dev` is the address of the owning session, `urb`
and `buffer` are handles (`none` is `NULL`). -/
structure psvr2_input_urb where
  dev : Nat
  urb : Option Nat
  buffer : Option Nat
  dma : Nat

/-- Input data structure: `int16_t accel[3]`, `int16_t gyro[3]`, `uint32_t timestamp`. -/
structure psvr2_tracking_data where
  accel : Int × Int × Int
  gyro : Int × Int × Int
  timestamp : u32

/-- Absolute axis codes of `linux/input-event-codes.h`. -/
inductive AbsAxis where
  | ABS_X | ABS_Y | ABS_Z | ABS_RX | ABS_RY | ABS_RZ

/-- Resources released through `kfree`. -/
inductive KObj where
  | session | control_buffer | input_buffer | tracking_urb

/-- Calls into the kernel, with the arguments that matter and, for a call that
can fail, what the kernel answered. -/
inductive KCall where
  | mutex_init (dev : Nat)
  | mutex_lock (dev : Nat)
  | mutex_unlock (dev : Nat)
  | mutex_destroy (dev : Nat)
  | copy_to_user (st : psvr2_status) (ret : Nat)
  | copy_from_user (ret : Nat)
  | usb_control_msg (udev request requesttype value index : Nat) (data : List u8)
      (timeout : Nat) (ret : Int)
  | usb_fill_int_urb (urb udev ep : Nat) (buffer : Option Nat) (len interval : Nat)
  | msleep (ms : Nat)
  | usb_submit_urb (urb : Nat) (ret : Int)
  | usb_kill_urb (urb : Nat)
  | input_report_abs (idev : Nat) (axis : AbsAxis) (value : Int)
  | input_sync (idev : Nat)
  | kzalloc (what : KObj) (ok : Bool)
  | kmalloc (what : KObj) (ok : Bool)
  | kfree (what : KObj)
  | usb_get_dev (udev : Nat)
  | usb_put_dev (udev : Nat)
  | alloc_chrdev_region (ret : Int)
  | unregister_chrdev_region (dev_num : Nat)
  | cdev_init
  | cdev_add (dev_num : Nat) (ret : Int)
  | cdev_del
  | class_create (res : Int)
  | class_destroy (cls : Int)
  | device_create (cls : Int) (dev_num : Nat) (res : Int)
  | device_destroy (cls : Int) (dev_num : Nat)
  | usb_set_intfdata (interface dev : Nat)
  | usb_alloc_urb (res : Option Nat)
  | usb_free_urb (urb : Nat)
  | usb_alloc_coherent (udev : Nat) (res : Option Nat)
  | usb_free_coherent (udev : Nat) (buffer : Option Nat) (dma : Nat)
  | input_allocate_device (res : Option Nat)
  | input_register_device (idev : Nat) (ret : Int)
  | input_unregister_device (idev : Nat)
  | input_free_device (idev : Nat)

/-- What lives outside the session: the two file-scope variables of
`psvr2_input.c`, the receive transfers the USB core currently holds, and the
record of the kernel calls made so far. -/
structure Kernel where
  tracking_urb : Option psvr2_input_urb
  tracking_input_dev : Option Nat
  inflight : List Nat
  trace : List KCall

/-- Record one kernel call. -/
def Kernel.call (k : Kernel) (c : KCall) : Kernel :=
  { k with trace := k.trace ++ [c] }

/-! ## `psvr2_input.c`: processing of a received payload -/

/-- Process tracking data and report to input subsystem. `data` is the receive
buffer and `size` the number of bytes received. The function is `void`; the
result is the local variable `tracking` when it was filled in (`none` when the
body of the `if` did not run) and the kernel state after the reports. A `NULL`
`tracking_input_dev` makes the first report fault. The parameter `dev` is not
used by the body and is left out. -/
def psvr2_input_process_data (k : Kernel) (data : Buffer) (size : Int) :
    Option (Option psvr2_tracking_data × Kernel) :=
  if size ≥ 14 then
    let tracking : psvr2_tracking_data :=
      { accel := (to_int16 (((data 0).val <<< 8) ||| (data 1).val : Nat),
                  to_int16 (((data 2).val <<< 8) ||| (data 3).val : Nat),
                  to_int16 (((data 4).val <<< 8) ||| (data 5).val : Nat))
        gyro := (to_int16 (((data 6).val <<< 8) ||| (data 7).val : Nat),
                 to_int16 (((data 8).val <<< 8) ||| (data 9).val : Nat),
                 to_int16 (((data 10).val <<< 8) ||| (data 11).val : Nat))
        timestamp := to_u32 (((data 12).val <<< 8) ||| (data 13).val) }
    match k.tracking_input_dev with
    | none => none
    | some idev =>
      let k := k.call (.input_report_abs idev .ABS_X tracking.accel.1)
      let k := k.call (.input_report_abs idev .ABS_Y tracking.accel.2.1)
      let k := k.call (.input_report_abs idev .ABS_Z tracking.accel.2.2)
      let k := k.call (.input_report_abs idev .ABS_RX tracking.gyro.1)
      let k := k.call (.input_report_abs idev .ABS_RY tracking.gyro.2.1)
      let k := k.call (.input_report_abs idev .ABS_RZ tracking.gyro.2.2)
      let k := k.call (.input_sync idev)
      some (some tracking, k)
  else
    some (none, k)

/-! ## `psvr2_input.c`: arming, starting and stopping the receive transfer -/

/-- The USB core accepts a transfer: `usb_submit_urb` returned 0. -/
def Kernel.submitted (k : Kernel) (urb : Nat) (ret : Int) : Kernel :=
  if ret = 0 then { k with inflight := urb :: k.inflight } else k

/-- The USB core has cancelled a transfer: `usb_kill_urb` returns once the
transfer is no longer in flight (its completion handler, run with `-ENOENT`, does
nothing). -/
def Kernel.killed (k : Kernel) (urb : Nat) : Kernel :=
  { k with inflight := k.inflight.filter (fun u => u ≠ urb) }

/-- Submit URB for tracking data. `usb_submit_urb_ret` is what `usb_submit_urb`
returns if it is called. Dereferencing a `NULL` `tracking_urb`, or filling a
`NULL` transfer, faults. -/
def psvr2_input_submit_urb (usb_submit_urb_ret : Int) (dev : psvr2_device) (k : Kernel) :
    Option (Int × Kernel) :=
  if dev.input_ep = 0 then
    some (-EINVAL, k)
  else
    match k.tracking_urb with
    | none => none
    | some tu =>
      match tu.urb with
      | none => none
      | some urb =>
        let k := k.call (.usb_fill_int_urb urb dev.udev dev.input_ep tu.buffer 64 1)
        let k := k.call (.msleep 10)
        let k := (k.call (.usb_submit_urb urb usb_submit_urb_ret)).submitted urb
          usb_submit_urb_ret
        some (usb_submit_urb_ret, k)

/-- Start tracking. The two arguments are the results of the control transfer
and of `usb_submit_urb`. -/
def psvr2_input_start (usb_control_msg_ret usb_submit_urb_ret : Int) (dev : psvr2_device)
    (k : Kernel) : Option (Int × psvr2_device × Kernel) :=
  let dev := { dev with control_buffer := Function.update dev.control_buffer 0 0x01 }
  let k := k.call (.usb_control_msg dev.udev 0x09 0x21 0x0301 0
    (Buffer.payload dev.control_buffer 1) 1000 usb_control_msg_ret)
  let ret := usb_control_msg_ret
  if ret < 0 then
    some (ret, dev, k)
  else
    match psvr2_input_submit_urb usb_submit_urb_ret dev k with
    | none => none
    | some (ret, k) =>
      if ret ≠ 0 then
        some (ret, dev, k)
      else
        some (0, { dev with status := { dev.status with tracking_active := 1 } }, k)

/-- Stop tracking. The argument is the result of the control transfer. -/
def psvr2_input_stop (usb_control_msg_ret : Int) (dev : psvr2_device) (k : Kernel) :
    Int × psvr2_device × Kernel :=
  let k :=
    match k.tracking_urb with
    | none => k
    | some tu =>
      match tu.urb with
      | none => k
      | some urb => (k.call (.usb_kill_urb urb)).killed urb
  let dev := { dev with control_buffer := Function.update dev.control_buffer 0 0x02 }
  let k := k.call (.usb_control_msg dev.udev 0x09 0x21 0x0301 0
    (Buffer.payload dev.control_buffer 1) 1000 usb_control_msg_ret)
  let ret := usb_control_msg_ret
  if ret < 0 then
    (ret, dev, k)
  else
    (0, { dev with status := { dev.status with tracking_active := 0 } }, k)

/-- URB completion callback. `status` (an `int`) and `actual_length` (a `u32`) are
the fields of the completed transfer, `data` is the content of the receive buffer
and `dev` the session that `urb->context->dev` points to; `usb_submit_urb_ret` is
what `usb_submit_urb` returns if the handler resubmits. The length is passed for
the parameter `int size` of `psvr2_input_process_data`, hence converted to `int`.
The result of the resubmission is dropped, as in the source. -/
def psvr2_input_complete (status : Int) (actual_length : u32) (data : Buffer)
    (usb_submit_urb_ret : Int) (dev : psvr2_device) (k : Kernel) : Option Kernel :=
  if status = 0 then
    match psvr2_input_process_data k data (u32_to_int actual_length) with
    | none => none
    | some (_, k) =>
      match psvr2_input_submit_urb usb_submit_urb_ret dev k with
      | none => none
      | some (_, k) => some k
  else if status = -ECONNRESET ∨ status = -ENOENT ∨ status = -ESHUTDOWN then
    some k
  else
    match psvr2_input_submit_urb usb_submit_urb_ret dev k with
    | none => none
    | some (_, k) => some k

/-- Clean up the input subsystem. -/
def psvr2_input_cleanup (usb_control_msg_ret : Int) (dev : psvr2_device) (k : Kernel) :
    psvr2_device × Kernel :=
  let (_, dev, k) := psvr2_input_stop usb_control_msg_ret dev k
  let k :=
    match k.tracking_input_dev with
    | none => k
    | some idev => { k.call (.input_unregister_device idev) with tracking_input_dev := none }
  let k :=
    match k.tracking_urb with
    | none => k
    | some tu =>
      let k :=
        match tu.buffer with
        | none => k
        | some b => k.call (.usb_free_coherent dev.udev (some b) tu.dma)
      let k :=
        match tu.urb with
        | none => k
        | some urb => k.call (.usb_free_urb urb)
      { k.call (.kfree .tracking_urb) with tracking_urb := none }
  ({ dev with status := { dev.status with tracking_active := 0 } }, k)

/-- What the kernel answers during `psvr2_input_init`. -/
structure InputInitEnv where
  kzalloc_tracking_urb : Bool
  usb_alloc_urb : Option Nat
  usb_alloc_coherent : Option (Nat × Nat)
  input_allocate_device : Option Nat
  input_register_device : Int
  usb_control_msg : Int
  usb_submit_urb : Int

/-- Label `error_urb_alloc` of `psvr2_input_init`. -/
def input_init_error_urb_alloc (k : Kernel) : Kernel :=
  { k.call (.kfree .tracking_urb) with tracking_urb := none }

/-- Label `error_buffer_alloc` of `psvr2_input_init`. -/
def input_init_error_buffer_alloc (urb : Nat) (k : Kernel) : Kernel :=
  input_init_error_urb_alloc (k.call (.usb_free_urb urb))

/-- Label `error_input_alloc` of `psvr2_input_init`. -/
def input_init_error_input_alloc (dev : psvr2_device) (urb : Nat) (buffer : Nat × Nat)
    (k : Kernel) : Kernel :=
  input_init_error_buffer_alloc urb
    (k.call (.usb_free_coherent dev.udev (some buffer.1) buffer.2))

/-- Initialize the input subsystem. The set-up of the new input device (name,
bus identifiers, axis ranges) writes to that device only and is left out. -/
def psvr2_input_init (env : InputInitEnv) (dev : psvr2_device) (k : Kernel) :
    Option (Int × psvr2_device × Kernel) :=
  let k := k.call (.kzalloc .tracking_urb env.kzalloc_tracking_urb)
  if !env.kzalloc_tracking_urb then
    some (-ENOMEM, dev, { k with tracking_urb := none })
  else
    let k := { k.call (.usb_alloc_urb env.usb_alloc_urb) with
      tracking_urb := some { dev := dev.addr, urb := env.usb_alloc_urb, buffer := none, dma := 0 } }
    match env.usb_alloc_urb with
    | none => some (-ENOMEM, dev, input_init_error_urb_alloc k)
    | some urb =>
      let k := { k.call (.usb_alloc_coherent dev.udev (env.usb_alloc_coherent.map Prod.fst)) with
        tracking_urb := some { dev := dev.addr, urb := some urb,
                               buffer := env.usb_alloc_coherent.map Prod.fst,
                               dma := (env.usb_alloc_coherent.map Prod.snd).getD 0 } }
      match env.usb_alloc_coherent with
      | none => some (-ENOMEM, dev, input_init_error_buffer_alloc urb k)
      | some buffer =>
        let k := { k.call (.input_allocate_device env.input_allocate_device) with
          tracking_input_dev := env.input_allocate_device }
        match env.input_allocate_device with
        | none => some (-ENOMEM, dev, input_init_error_input_alloc dev urb buffer k)
        | some idev =>
          let k := k.call (.input_register_device idev env.input_register_device)
          let ret := env.input_register_device
          if ret ≠ 0 then
            some (ret, dev,
              input_init_error_input_alloc dev urb buffer (k.call (.input_free_device idev)))
          else
            match psvr2_input_start env.usb_control_msg env.usb_submit_urb dev k with
            | none => none
            | some (ret, dev, k) =>
              if ret ≠ 0 then
                some (ret, dev,
                  input_init_error_input_alloc dev urb buffer
                    { k.call (.input_unregister_device idev) with tracking_input_dev := none })
              else
                some (0, { dev with status := { dev.status with tracking_active := 1 } }, k)

/-! ## `fixed/psvr2_display.c` -/

/-- Initialize the display subsystem. -/
def psvr2_display_init (dev : psvr2_device) : Int × psvr2_device :=
  (0, { dev with status := { dev.status with display_active := 0 } })

/-- Clean up the display subsystem. -/
def psvr2_display_cleanup (dev : psvr2_device) : psvr2_device :=
  { dev with status := { dev.status with display_active := 0 } }

/-- Set display mode. `usb_control_msg_ret` is what the control transfer returns
if it is issued: a negative errno, or the number of bytes transferred. -/
def psvr2_display_set_mode (usb_control_msg_ret : Int) (dev : psvr2_device) (k : Kernel)
    (mode : psvr2_mode) : Int × psvr2_device × Kernel :=
  if (mode.width.val ≠ 2000 ∧ mode.width.val ≠ 4000) ∨
      (mode.height.val ≠ 2040) ∨
      (mode.refresh_rate.val ≠ 90 ∧ mode.refresh_rate.val ≠ 120) then
    (-EINVAL, dev, k)
  else
    let buf := dev.control_buffer
    let buf := Function.update buf 0 PSVR2_SET_DISPLAY_MODE
    let buf := Function.update buf 1 (to_u8 ((mode.width.val >>> 8) &&& 0xFF))
    let buf := Function.update buf 2 (to_u8 (mode.width.val &&& 0xFF))
    let buf := Function.update buf 3 (to_u8 ((mode.height.val >>> 8) &&& 0xFF))
    let buf := Function.update buf 4 (to_u8 (mode.height.val &&& 0xFF))
    let buf := Function.update buf 5 mode.refresh_rate
    let buf := Function.update buf 6 mode.flags
    let dev := { dev with control_buffer := buf }
    let k := k.call (.usb_control_msg dev.udev 0x09 0x21 0x0300 0 (Buffer.payload buf 7) 1000
      usb_control_msg_ret)
    let ret := usb_control_msg_ret
    if ret < 0 then
      (ret, dev, k)
    else
      (0, { dev with status := { dev.status with display_active := 1 } }, k)

/-! ## `psvr2_adapter_main.c`: the ioctl handler -/

/-- IOCTL handler. `dev` is `file->private_data`. The answers of the environment:
`copy_to_user_ret` and `copy_from_user_ret` are the numbers of bytes the two
user-memory copies fail to copy (0 is success), `user_mode` is the mode structure
found at the user address, `usb_control_msg_ret` is the result of the control
transfer. -/
def psvr2_adapter_ioctl (copy_to_user_ret copy_from_user_ret : Nat) (user_mode : psvr2_mode)
    (usb_control_msg_ret : Int) (dev : psvr2_device) (k : Kernel) (cmd : Nat) :
    Int × psvr2_device × Kernel :=
  let k := k.call (.mutex_lock dev.addr)
  let (ret, dev, k) : Int × psvr2_device × Kernel :=
    if cmd = PSVR2_IOCTL_GET_STATUS then
      let k := k.call (.copy_to_user dev.status copy_to_user_ret)
      if copy_to_user_ret ≠ 0 then (-EFAULT, dev, k) else (0, dev, k)
    else if cmd = PSVR2_IOCTL_SET_MODE then
      let k := k.call (.copy_from_user copy_from_user_ret)
      if copy_from_user_ret ≠ 0 then
        (-EFAULT, dev, k)
      else
        let mode := user_mode
        let (ret, dev, k) := psvr2_display_set_mode usb_control_msg_ret dev k mode
        if ret = 0 then
          (ret, { dev with current_mode := mode }, k)
        else
          (ret, dev, k)
    else if cmd = PSVR2_IOCTL_RESET then
      (0, dev, k)
    else
      (-ENOTTY, dev, k)
  let k := k.call (.mutex_unlock dev.addr)
  (ret, dev, k)

/-! ## `psvr2_adapter_main.c`: attach -/

/-- The fields of `struct usb_endpoint_descriptor` (`linux/usb/ch9.h`) that the
driver reads. -/
structure usb_endpoint_descriptor where
  bEndpointAddress : u8
  bmAttributes : u8
  wMaxPacketSize : u16

/-- The kernel helper of `linux/usb/ch9.h`: the endpoint has direction IN (bit 7
of the address set) and transfer type interrupt (low two attribute bits equal 3). -/
def usb_endpoint_is_int_in (ep : usb_endpoint_descriptor) : Bool :=
  (ep.bEndpointAddress.val &&& 0x80 == 0x80) && (ep.bmAttributes.val &&& 0x03 == 0x03)

/-- The kernel helper of `linux/usb/ch9.h`: the endpoint has direction OUT (bit 7
of the address clear) and transfer type interrupt. -/
def usb_endpoint_is_int_out (ep : usb_endpoint_descriptor) : Bool :=
  (ep.bEndpointAddress.val &&& 0x80 == 0x00) && (ep.bmAttributes.val &&& 0x03 == 0x03)

/-- The interface handed to `psvr2_adapter_probe`: its address, the USB device
it belongs to, and the interface number and endpoint array of its current
alternate setting. -/
structure usb_interface where
  addr : Nat
  udev : Nat
  bInterfaceNumber : u8
  endpoint : List usb_endpoint_descriptor

/-- The loop "Set up endpoints" of `psvr2_adapter_probe`, run over the endpoint
array from the given values of `dev->input_ep` and `dev->output_ep`. -/
def psvr2_adapter_probe_endpoints :
    List usb_endpoint_descriptor → Nat × Nat → Nat × Nat
  | [], eps => eps
  | ep_desc :: rest, (input_ep, output_ep) =>
    if usb_endpoint_is_int_in ep_desc then
      psvr2_adapter_probe_endpoints rest (ep_desc.bEndpointAddress.val, output_ep)
    else if usb_endpoint_is_int_out ep_desc then
      psvr2_adapter_probe_endpoints rest (input_ep, ep_desc.bEndpointAddress.val)
    else
      psvr2_adapter_probe_endpoints rest (input_ep, output_ep)

/-- The kernel macro `IS_ERR` on a pointer read as a `long`: the value lies in
the last `MAX_ERRNO` = 4095 addresses. -/
def IS_ERR (p : Int) : Bool := decide (-4095 ≤ p ∧ p < 0)

/-- What the kernel answers during `psvr2_adapter_probe`: the address of the new
session structure, the two buffers with their initial contents, the return value
of `alloc_chrdev_region` with the device number it assigned, the return value of
`cdev_add`, the pointers returned by `class_create` and `device_create`, and the
answers during `psvr2_input_init`. -/
structure ProbeEnv where
  kzalloc_dev : Option Nat
  kmalloc_control : Option Buffer
  kmalloc_input : Option Buffer
  alloc_chrdev_region : Int × Nat
  cdev_add : Int
  class_create : Int
  device_create : Int
  input : InputInitEnv

/-- Label `error_buffers` of `psvr2_adapter_probe`. -/
def probe_error_buffers (addr udev : Nat) (k : Kernel) : Kernel :=
  ((k.call (.usb_put_dev udev)).call (.mutex_destroy addr)).call (.kfree .session)

/-- Label `error_dev_num` of `psvr2_adapter_probe`. -/
def probe_error_dev_num (dev : psvr2_device) (k : Kernel) : Kernel :=
  probe_error_buffers dev.addr dev.udev
    ((k.call (.kfree .control_buffer)).call (.kfree .input_buffer))

/-- Label `error_cdev` of `psvr2_adapter_probe`. -/
def probe_error_cdev (dev : psvr2_device) (k : Kernel) : Kernel :=
  probe_error_dev_num dev (k.call (.unregister_chrdev_region dev.dev_num))

/-- Label `error_class` of `psvr2_adapter_probe`. -/
def probe_error_class (dev : psvr2_device) (k : Kernel) : Kernel :=
  probe_error_cdev dev (k.call .cdev_del)

/-- Label `error_device` of `psvr2_adapter_probe`. -/
def probe_error_device (dev : psvr2_device) (k : Kernel) : Kernel :=
  probe_error_class dev (k.call (.class_destroy dev.class_ptr))

/-- Label `error_display` of `psvr2_adapter_probe`. -/
def probe_error_display (dev : psvr2_device) (k : Kernel) : Kernel :=
  probe_error_device dev (k.call (.device_destroy dev.class_ptr dev.dev_num))

/-- Label `error_input` of `psvr2_adapter_probe`. -/
def probe_error_input (dev : psvr2_device) (k : Kernel) : Kernel :=
  probe_error_display (psvr2_display_cleanup dev) k

/-- The result of `psvr2_adapter_probe`: the return value, the session published
with `usb_set_intfdata` if any, and the kernel state. -/
structure ProbeResult where
  ret : Int
  intfdata : Option psvr2_device
  k : Kernel

/-- The body of `psvr2_adapter_probe`, with the display step as a parameter so
that a failure of that step can be simulated (`psvr2_display_init` as written
always returns 0). The record of the session is written down once both buffers
exist; until then its fields are local values. The file-scope variable `major`
is written and never read. -/
def psvr2_adapter_probe_with (display_init : psvr2_device → Int × psvr2_device)
    (env : ProbeEnv) (interface : usb_interface) (k : Kernel) : Option ProbeResult :=
  let interface_num : Int := interface.bInterfaceNumber.val
  if interface_num ≠ 0 ∧ interface_num ≠ 3 then
    some ⟨-ENODEV, none, k⟩
  else
    let k := k.call (.kzalloc .session env.kzalloc_dev.isSome)
    match env.kzalloc_dev with
    | none => some ⟨-ENOMEM, none, k⟩
    | some addr =>
      let k := k.call (.mutex_init addr)
      let k := k.call (.usb_get_dev interface.udev)
      let eps := psvr2_adapter_probe_endpoints interface.endpoint (0, 0)
      let k := k.call (.kmalloc .control_buffer env.kmalloc_control.isSome)
      let k := k.call (.kmalloc .input_buffer env.kmalloc_input.isSome)
      match env.kmalloc_control, env.kmalloc_input with
      | some control_buffer, some input_buffer =>
        let dev : psvr2_device :=
          { addr := addr, udev := interface.udev, interface := interface.addr
            control_ep := 0, input_ep := eps.1, output_ep := eps.2
            status := ⟨0, 0, 0, 0⟩
            current_mode := ⟨0, 0, 0, 0⟩
            control_buffer := control_buffer
            input_buffer := input_buffer
            dev_num := env.alloc_chrdev_region.2
            class_ptr := 0 }
        let k := k.call (.alloc_chrdev_region env.alloc_chrdev_region.1)
        let ret := env.alloc_chrdev_region.1
        if ret < 0 then
          some ⟨ret, none, probe_error_dev_num dev k⟩
        else
          let k := k.call .cdev_init
          let k := k.call (.cdev_add dev.dev_num env.cdev_add)
          let ret := env.cdev_add
          if ret < 0 then
            some ⟨ret, none, probe_error_cdev dev k⟩
          else
            let k := k.call (.class_create env.class_create)
            let dev := { dev with class_ptr := env.class_create }
            if IS_ERR dev.class_ptr then
              some ⟨long_to_int dev.class_ptr, none, probe_error_class dev k⟩
            else
              let k := k.call (.device_create dev.class_ptr dev.dev_num env.device_create)
              if IS_ERR env.device_create then
                some ⟨long_to_int dev.class_ptr, none, probe_error_device dev k⟩
              else
                let (ret, dev) := display_init dev
                if ret < 0 then
                  some ⟨ret, none, probe_error_display dev k⟩
                else
                  match psvr2_input_init env.input dev k with
                  | none => none
                  | some (ret, dev, k) =>
                    if ret < 0 then
                      some ⟨ret, none, probe_error_input dev k⟩
                    else
                      let dev := { dev with current_mode := ⟨2000, 2040, 90, 0⟩ }
                      let k := k.call (.usb_set_intfdata interface.addr dev.addr)
                      some ⟨0, some dev, k⟩
      | _, _ => some ⟨-ENOMEM, none, probe_error_buffers addr interface.udev k⟩

/-- USB probe function - called when the adapter is connected. -/
def psvr2_adapter_probe (env : ProbeEnv) (interface : usb_interface) (k : Kernel) :
    Option ProbeResult :=
  psvr2_adapter_probe_with psvr2_display_init env interface k

/-- The signed 16-bit big-endian value of the two bytes `hi`, `lo`. -/
def be16_signed (hi lo : u8) : Int :=
  if hi.val < 128 then (256 * hi.val + lo.val : Nat) else (256 * hi.val + lo.val : Nat) - 65536

/-- The unsigned 16-bit big-endian value of the two bytes `hi`, `lo`. -/
def be16_unsigned (hi lo : u8) : Nat := 256 * hi.val + lo.val

/-- The receive buffer that starts with the given bytes (the rest is zero). -/
def Buffer.ofList (l : List u8) : Buffer := fun i => l.getD i.val 0

/-- The 14-byte sample payload of the specification. -/
def sample_payload : Buffer :=
  Buffer.ofList [0x00, 0x0A, 0x00, 0x14, 0x00, 0x1E, 0xFF, 0xF6, 0xFF, 0xEC, 0xFF, 0xE2, 0x03, 0xE8]

/-- A kernel state in which the input subsystem is set up for the session at
address 1 (transfer 10, receive buffer 11, input device 12) and idle. -/
def idle_kernel : Kernel :=
  { tracking_urb := some { dev := 1, urb := some 10, buffer := some 11, dma := 0 }
    tracking_input_dev := some 12
    inflight := []
    trace := [] }

/-- A mode is in the supported set: width 2000 or 4000, height 2040, refresh
rate 90 or 120. -/
def supported_mode (mode : psvr2_mode) : Prop :=
  (mode.width.val = 2000 ∨ mode.width.val = 4000) ∧ mode.height.val = 2040 ∧
    (mode.refresh_rate.val = 90 ∨ mode.refresh_rate.val = 120)

/-- Membership in the supported set can be computed. -/
instance (mode : psvr2_mode) : Decidable (supported_mode mode) := by
  unfold supported_mode; infer_instance

/-- A session as `psvr2_adapter_probe` leaves it, with the given status. -/
def sample_device (st : psvr2_status) : psvr2_device :=
  { addr := 1, udev := 2, interface := 3, control_ep := 0, input_ep := 0x81, output_ep := 0
    status := st
    current_mode := { width := 2000, height := 2040, refresh_rate := 90, flags := 0 }
    control_buffer := fun _ => 0
    input_buffer := fun _ => 0
    dev_num := 0
    class_ptr := 4096 }

/-- The kernel state `idle_kernel` with the receive transfer 10 in flight. -/
def armed_kernel : Kernel := { idle_kernel with inflight := [10] }

/-- The session and the kernel state at the point where `psvr2_input_start` calls
`psvr2_input_submit_urb`: the start command is in the control buffer and the
control transfer, with result `usb_control_msg_ret`, has been made. -/
def start_command_sent (usb_control_msg_ret : Int) (dev : psvr2_device) (k : Kernel) :
    psvr2_device × Kernel :=
  ({ dev with control_buffer := Function.update dev.control_buffer 0 0x01 },
   k.call (.usb_control_msg dev.udev 0x09 0x21 0x0301 0
     (Buffer.payload (Function.update dev.control_buffer 0 0x01) 1) 1000 usb_control_msg_ret))

/-- The kernel state `k'` is later than `k`: its record of calls continues that of `k`. -/
def Kernel.grows (k k' : Kernel) : Prop := ∃ rest, k'.trace = k.trace ++ rest

/-- The first endpoint of the array that satisfies `p`. -/
def first_endpoint (p : usb_endpoint_descriptor → Bool) (eps : List usb_endpoint_descriptor) :
    Option usb_endpoint_descriptor :=
  eps.find? p

/-- The last endpoint of the array that satisfies `p`. -/
def last_endpoint (p : usb_endpoint_descriptor → Bool) (eps : List usb_endpoint_descriptor) :
    Option usb_endpoint_descriptor :=
  eps.reverse.find? p

/-- The address of an endpoint, or `dflt` when there is none. -/
def endpoint_address (o : Option usb_endpoint_descriptor) (dflt : Nat) : Nat :=
  match o with
  | some ep => ep.bEndpointAddress.val
  | none => dflt

/-- An interface with the given number and endpoints, at address 3 on device 2. -/
def sample_interface (n : u8) (eps : List usb_endpoint_descriptor) : usb_interface :=
  { addr := 3, udev := 2, bInterfaceNumber := n, endpoint := eps }

/-- Kernel answers under which every step of the attach succeeds. -/
def sample_env : ProbeEnv :=
  { kzalloc_dev := some 1
    kmalloc_control := some (fun _ => 0)
    kmalloc_input := some (fun _ => 0)
    alloc_chrdev_region := (0, 240)
    cdev_add := 0
    class_create := 4096
    device_create := 8192
    input :=
      { kzalloc_tracking_urb := true
        usb_alloc_urb := some 10
        usb_alloc_coherent := some (11, 0)
        input_allocate_device := some 12
        input_register_device := 0
        usb_control_msg := 1
        usb_submit_urb := 0 } }

/-- A kernel state before any attach. -/
def boot_kernel : Kernel :=
  { tracking_urb := none, tracking_input_dev := none, inflight := [], trace := [] }

/-- Two interrupt-in endpoints (0x81, 0x82) followed by two interrupt-out
endpoints (0x01, 0x02). -/
def two_in_two_out : List usb_endpoint_descriptor :=
  [⟨0x81, 0x03, 64⟩, ⟨0x82, 0x03, 64⟩, ⟨0x01, 0x03, 64⟩, ⟨0x02, 0x03, 64⟩]

/-! ## Resources, completions and reachable states -/

/-- What bring-up acquires and tear-down releases. -/
inductive Resource where
  | session | lock | device_handle | control_buffer | input_buffer | dev_num | cdev
  | device_class | device_file | tracking_urb | urb | urb_buffer | input_device
  deriving DecidableEq

/-- The bring-up stage of a resource; the two buffers are allocated in one stage. -/
def Resource.stage : Resource → Nat
  | .session => 0
  | .lock => 1
  | .device_handle => 2
  | .control_buffer => 3
  | .input_buffer => 3
  | .dev_num => 4
  | .cdev => 5
  | .device_class => 6
  | .device_file => 7
  | .tracking_urb => 8
  | .urb => 9
  | .urb_buffer => 10
  | .input_device => 11

/-- The resource a kernel call has acquired, judged by the recorded answer. -/
def KCall.acquires : KCall → Option Resource
  | .kzalloc .session true => some .session
  | .kzalloc .tracking_urb true => some .tracking_urb
  | .mutex_init _ => some .lock
  | .usb_get_dev _ => some .device_handle
  | .kmalloc .control_buffer true => some .control_buffer
  | .kmalloc .input_buffer true => some .input_buffer
  | .alloc_chrdev_region ret => if ret < 0 then none else some .dev_num
  | .cdev_add _ ret => if ret < 0 then none else some .cdev
  | .class_create res => if IS_ERR res then none else some .device_class
  | .device_create _ _ res => if IS_ERR res then none else some .device_file
  | .usb_alloc_urb (some _) => some .urb
  | .usb_alloc_coherent _ (some _) => some .urb_buffer
  | .input_allocate_device (some _) => some .input_device
  | _ => none

/-- The resource a kernel call releases. -/
def KCall.releases : KCall → Option Resource
  | .kfree .session => some .session
  | .kfree .control_buffer => some .control_buffer
  | .kfree .input_buffer => some .input_buffer
  | .kfree .tracking_urb => some .tracking_urb
  | .mutex_destroy _ => some .lock
  | .usb_put_dev _ => some .device_handle
  | .unregister_chrdev_region _ => some .dev_num
  | .cdev_del => some .cdev
  | .class_destroy _ => some .device_class
  | .device_destroy _ _ => some .device_file
  | .usb_free_urb _ => some .urb
  | .usb_free_coherent _ _ _ => some .urb_buffer
  | .input_unregister_device _ => some .input_device
  | .input_free_device _ => some .input_device
  | _ => none

/-- The resources acquired along a trace, in order. -/
def acquired (t : List KCall) : List Resource := t.filterMap KCall.acquires

/-- The resources released along a trace, in order. -/
def released (t : List KCall) : List Resource := t.filterMap KCall.releases

/-- A trace that releases exactly what it acquired, each resource once, in the
reverse order of the bring-up stages. -/
def rollback_exact (t : List KCall) : Prop :=
  (released t).Perm (acquired t) ∧
    (released t).map Resource.stage = ((acquired t).map Resource.stage).reverse

/-- Exactness of a rollback can be computed. -/
instance (t : List KCall) : Decidable (rollback_exact t) := by
  unfold rollback_exact; infer_instance

/-- The session was published: the trace has a call of `usb_set_intfdata`. -/
def publishes (t : List KCall) : Bool :=
  t.any fun c => match c with
    | .usb_set_intfdata _ _ => true
    | _ => false

/-- The number of arm attempts in a trace: the calls of `usb_submit_urb`. -/
def arm_attempts (t : List KCall) : Nat :=
  t.countP fun c => match c with
    | .usb_submit_urb _ _ => true
    | _ => false

/-- The number of reports to the input subsystem in a trace. -/
def reports (t : List KCall) : Nat :=
  t.countP fun c => match c with
    | .input_report_abs _ _ _ => true
    | .input_sync _ => true
    | _ => false

/-- The completion status is cancellation-class. -/
def cancellation_class (status : Int) : Prop :=
  status = -ECONNRESET ∨ status = -ENOENT ∨ status = -ESHUTDOWN

/-- Cancellation-class can be computed. -/
instance (status : Int) : Decidable (cancellation_class status) := by
  unfold cancellation_class; infer_instance

/-- The USB core hands a transfer back: it is no longer in flight when its
completion handler runs. -/
def Kernel.completed (k : Kernel) (urb : Nat) : Kernel :=
  { k with inflight := k.inflight.erase urb }

/-- One completion of the receive transfer, as the USB core reports it, with the
answer to the resubmission the handler may make. -/
structure Completion where
  status : Int
  actual_length : u32
  data : Buffer
  usb_submit_urb_ret : Int

/-- The pump's receive transfer: the one `tracking_urb` refers to. -/
def Kernel.pump_urb (k : Kernel) : Option Nat :=
  match k.tracking_urb with
  | none => none
  | some tu => tu.urb

/-- The pump has a live, armed receive transfer. -/
def Kernel.armed (k : Kernel) : Prop :=
  ∃ urb, k.pump_urb = some urb ∧ urb ∈ k.inflight

/-- Delivery of one completion of the pump's transfer to `psvr2_input_complete`.
It can happen only while that transfer is in flight (`none` otherwise, as when
the handler faults). -/
def deliver_completion (c : Completion) (dev : psvr2_device) (k : Kernel) : Option Kernel :=
  match k.pump_urb with
  | none => none
  | some urb =>
    if urb ∈ k.inflight then
      psvr2_input_complete c.status c.actual_length c.data c.usb_submit_urb_ret dev
        (k.completed urb)
    else
      none

/-- Delivery of a sequence of completions, one after the other. -/
def deliver_completions (dev : psvr2_device) : List Completion → Kernel → Option Kernel
  | [], k => some k
  | c :: cs, k =>
    match deliver_completion c dev k with
    | none => none
    | some k' => deliver_completions dev cs k'

/-- A non-cancellation error completion (`-EPROTO` = -71, nothing received) whose
resubmission the USB core answers with `ret`. -/
def protocol_error (ret : Int) : Completion :=
  { status := -71, actual_length := 0, data := fun _ => 0, usb_submit_urb_ret := ret }

/-- A success completion with the 14-byte sample payload whose resubmission the
USB core refuses with `-ENODEV` = -19. -/
def refused_after_frame : Completion :=
  { status := 0, actual_length := 14, data := sample_payload, usb_submit_urb_ret := -19 }

/-- Kernel answers under which the allocation of the input buffer fails and
everything before it succeeds. -/
def input_buffer_fails_env : ProbeEnv := { sample_env with kmalloc_input := none }

/-- Kernel answers under which the allocation of the control buffer fails and
that of the input buffer succeeds. -/
def control_buffer_fails_env : ProbeEnv := { sample_env with kmalloc_control := none }

/-- Kernel answers under which `class_create` returns the pointer
0xffff888004a3c000 (read as a `long`) and `device_create` then fails with
`ERR_PTR(-ENOMEM)`. -/
def device_create_fails_env : ProbeEnv :=
  { sample_env with class_create := -131391561678848, device_create := -12 }

/-- A display step that fails with `-EIO` = -5, for simulation. -/
def failing_display_init (dev : psvr2_device) : Int × psvr2_device := (-5, dev)

/-- Another session, at address 20 on device 21, next to `sample_device`. -/
def second_device : psvr2_device :=
  { sample_device ⟨1, 0, 0, 0⟩ with addr := 20, udev := 21, interface := 22 }

/-- Kernel answers under which `psvr2_input_init` succeeds with transfer 30,
receive buffer 31 and input device 32. -/
def second_input_env : InputInitEnv :=
  { kzalloc_tracking_urb := true
    usb_alloc_urb := some 30
    usb_alloc_coherent := some (31, 0)
    input_allocate_device := some 32
    input_register_device := 0
    usb_control_msg := 1
    usb_submit_urb := 0 }

/-- The number of times the lock of the session at `addr` is taken in a trace. -/
def lock_acquires (addr : Nat) (t : List KCall) : Nat :=
  t.countP fun c => match c with
    | .mutex_lock a => decide (a = addr)
    | _ => false

/-- The number of times the lock of the session at `addr` is released in a trace. -/
def lock_releases (addr : Nat) (t : List KCall) : Nat :=
  t.countP fun c => match c with
    | .mutex_unlock a => decide (a = addr)
    | _ => false

/-- Whether the lock of the session at `addr` is held after the calls of a trace,
given whether it was held before them. -/
def lock_held (addr : Nat) (held : Bool) : List KCall → Bool
  | [] => held
  | .mutex_lock a :: t => lock_held addr (if a = addr then true else held) t
  | .mutex_unlock a :: t => lock_held addr (if a = addr then false else held) t
  | _ :: t => lock_held addr held t

/-- The command code is one of the three that the ioctl handler knows. -/
def known_command (cmd : Nat) : Prop :=
  cmd = PSVR2_IOCTL_GET_STATUS ∨ cmd = PSVR2_IOCTL_SET_MODE ∨ cmd = PSVR2_IOCTL_RESET

/-- Being a known command can be computed. -/
instance (cmd : Nat) : Decidable (known_command cmd) := by
  unfold known_command; infer_instance

/-! ## Theorems -/

/-- The C expression `(hi << 8) | lo` on two bytes is `256 * hi + lo`. -/
theorem shl8_or_eq (hi lo : u8) : ((hi.val <<< 8) ||| lo.val) = 256 * hi.val + lo.val := by
  have h : lo.val < 2 ^ 8 := lo.isLt
  rw [Nat.shiftLeft_eq, Nat.mul_comm, ← Nat.mul_add_lt_is_or h]

/-- Storing `(hi << 8) | lo` into an `int16_t` gives the signed big-endian value. -/
theorem to_int16_shl8_or (hi lo : u8) :
    to_int16 (((hi.val <<< 8) ||| lo.val : Nat) : Int) = be16_signed hi lo := by
  rw [shl8_or_eq]
  have h1 := hi.isLt
  have h2 := lo.isLt
  unfold to_int16 be16_signed
  split <;> omega

/-- Storing `(hi << 8) | lo` into a `uint32_t` gives the unsigned big-endian value. -/
theorem to_u32_shl8_or (hi lo : u8) :
    (to_u32 ((hi.val <<< 8) ||| lo.val)).val = be16_unsigned hi lo := by
  rw [shl8_or_eq]
  have h1 := hi.isLt
  have h2 := lo.isLt
  unfold to_u32 be16_unsigned
  simp only
  omega

/-! ### Packet decoding -/

/-- With the input device in place, a payload of at least 14 bytes is decoded
field by field as big-endian 16-bit values and the six axis values are reported. -/
theorem process_data_of_ge (k : Kernel) (idev : Nat) (data : Buffer) (size : Int)
    (hdev : k.tracking_input_dev = some idev) (hsize : 14 ≤ size) :
    ∃ t k', psvr2_input_process_data k data size = some (some t, k') ∧
      t.accel = (be16_signed (data 0) (data 1), be16_signed (data 2) (data 3),
                 be16_signed (data 4) (data 5)) ∧
      t.gyro = (be16_signed (data 6) (data 7), be16_signed (data 8) (data 9),
                be16_signed (data 10) (data 11)) ∧
      t.timestamp.val = be16_unsigned (data 12) (data 13) ∧
      k'.trace = k.trace ++
        [.input_report_abs idev .ABS_X (be16_signed (data 0) (data 1)),
         .input_report_abs idev .ABS_Y (be16_signed (data 2) (data 3)),
         .input_report_abs idev .ABS_Z (be16_signed (data 4) (data 5)),
         .input_report_abs idev .ABS_RX (be16_signed (data 6) (data 7)),
         .input_report_abs idev .ABS_RY (be16_signed (data 8) (data 9)),
         .input_report_abs idev .ABS_RZ (be16_signed (data 10) (data 11)),
         .input_sync idev] := by
  refine ⟨?t, ?k', ?h1, ?h2, ?h3, ?h4, ?h5⟩
  case h1 =>
    unfold psvr2_input_process_data
    rw [if_pos hsize]
    simp only [hdev]
    exact rfl
  case h2 => simp only [to_int16_shl8_or]
  case h3 => simp only [to_int16_shl8_or]
  case h4 => exact to_u32_shl8_or _ _
  case h5 =>
    simp only [Kernel.call, to_int16_shl8_or, List.append_assoc, List.singleton_append,
      List.cons_append, List.nil_append]

/-- The big-endian values of the sample payload. -/
theorem sample_payload_values :
    be16_signed (sample_payload 0) (sample_payload 1) = 10 ∧
    be16_signed (sample_payload 2) (sample_payload 3) = 20 ∧
    be16_signed (sample_payload 4) (sample_payload 5) = 30 ∧
    be16_signed (sample_payload 6) (sample_payload 7) = -10 ∧
    be16_signed (sample_payload 8) (sample_payload 9) = -20 ∧
    be16_signed (sample_payload 10) (sample_payload 11) = -30 ∧
    be16_unsigned (sample_payload 12) (sample_payload 13) = 1000 := by
  decide

/-- C1: a payload of at least 14 bytes is decoded as three signed 16-bit
big-endian accelerometer values at offsets 0, 2, 4, three signed 16-bit
big-endian gyroscope values at offsets 6, 8, 10 and an unsigned 16-bit
big-endian timestamp at offset 12 (hence below 65536), and the six axis values
are what is reported; the sample payload decodes to accel (10, 20, 30),
gyro (-10, -20, -30), timestamp 1000. -/
theorem process_data_decodes (k : Kernel) (idev : Nat) (data : Buffer) (size : Int)
    (hdev : k.tracking_input_dev = some idev) (hsize : 14 ≤ size) :
    (∃ t k', psvr2_input_process_data k data size = some (some t, k') ∧
      t.accel = (be16_signed (data 0) (data 1), be16_signed (data 2) (data 3),
                 be16_signed (data 4) (data 5)) ∧
      t.gyro = (be16_signed (data 6) (data 7), be16_signed (data 8) (data 9),
                be16_signed (data 10) (data 11)) ∧
      t.timestamp.val = be16_unsigned (data 12) (data 13) ∧
      t.timestamp.val < 65536 ∧
      k'.trace = k.trace ++
        [.input_report_abs idev .ABS_X (be16_signed (data 0) (data 1)),
         .input_report_abs idev .ABS_Y (be16_signed (data 2) (data 3)),
         .input_report_abs idev .ABS_Z (be16_signed (data 4) (data 5)),
         .input_report_abs idev .ABS_RX (be16_signed (data 6) (data 7)),
         .input_report_abs idev .ABS_RY (be16_signed (data 8) (data 9)),
         .input_report_abs idev .ABS_RZ (be16_signed (data 10) (data 11)),
         .input_sync idev]) ∧
    (∃ t k', psvr2_input_process_data k sample_payload 14 = some (some t, k') ∧
      t.accel = (10, 20, 30) ∧ t.gyro = (-10, -20, -30) ∧ t.timestamp.val = 1000) := by
  constructor
  · obtain ⟨t, k', h1, h2, h3, h4, h5⟩ := process_data_of_ge k idev data size hdev hsize
    refine ⟨t, k', h1, h2, h3, h4, ?_, h5⟩
    rw [h4]
    have hi := (data 12).isLt
    have lo := (data 13).isLt
    unfold be16_unsigned
    omega
  · obtain ⟨t, k', h1, h2, h3, h4, _⟩ :=
      process_data_of_ge k idev sample_payload 14 hdev (by decide)
    obtain ⟨v1, v2, v3, v4, v5, v6, v7⟩ := sample_payload_values
    refine ⟨t, k', h1, ?_, ?_, ?_⟩
    · rw [h2, v1, v2, v3]
    · rw [h3, v4, v5, v6]
    · rw [h4, v7]

/-- Instance of C1 on the idle kernel state with the sample payload. -/
theorem process_data_decodes_witness :
    ∃ t k', psvr2_input_process_data idle_kernel sample_payload 14 = some (some t, k') ∧
      t.accel = (10, 20, 30) ∧ t.gyro = (-10, -20, -30) ∧ t.timestamp.val = 1000 :=
  (process_data_decodes idle_kernel 12 sample_payload 14 rfl (by decide)).2

/-- C2: a payload shorter than 14 bytes (zero and negative lengths included)
yields no frame, leaves the kernel state and so the record of reports as it was,
and does not fault; with the input device in place a frame is produced exactly
when the length is at least 14. -/
theorem process_data_short (k : Kernel) (data : Buffer) (size : Int) :
    (size < 14 → psvr2_input_process_data k data size = some (none, k)) ∧
    (∀ idev, k.tracking_input_dev = some idev →
      ((∃ t k', psvr2_input_process_data k data size = some (some t, k')) ↔ 14 ≤ size)) := by
  constructor
  · intro h
    have : ¬ size ≥ 14 := by omega
    simp only [psvr2_input_process_data, this, if_false]
  · intro idev hdev
    constructor
    · rintro ⟨t, k', h⟩
      by_contra hc
      have : ¬ size ≥ 14 := hc
      simp [psvr2_input_process_data, this] at h
    · intro h
      obtain ⟨t, k', h1, _⟩ := process_data_of_ge k idev data size hdev h
      exact ⟨t, k', h1⟩

/-- Instance of C2: an empty payload and a 13-byte payload on the idle kernel state. -/
theorem process_data_short_witness :
    psvr2_input_process_data idle_kernel sample_payload 0 = some (none, idle_kernel) ∧
    psvr2_input_process_data idle_kernel sample_payload 13 = some (none, idle_kernel) :=
  ⟨(process_data_short idle_kernel sample_payload 0).1 (by decide),
   (process_data_short idle_kernel sample_payload 13).1 (by decide)⟩

/-! ### Display mode -/

/-- The first seven bytes of a buffer. -/
theorem payload_seven (b : Buffer) : Buffer.payload b 7 = [b 0, b 1, b 2, b 3, b 4, b 5, b 6] := rfl

/-- Masking with `0xFF` keeps the low byte. -/
theorem and_ff (x : Nat) : x &&& 0xFF = x % 256 := Nat.and_pow_two_sub_one_eq_mod x 8

/-- The two bytes `(w >> 8) & 0xFF` and `w & 0xFF` are the big-endian encoding of
a 16-bit value. -/
theorem be16_encode (w : u16) :
    256 * (to_u8 ((w.val >>> 8) &&& 0xFF)).val + (to_u8 (w.val &&& 0xFF)).val = w.val := by
  have h := w.isLt
  simp only [to_u8, and_ff, Nat.shiftRight_eq_div_pow]
  omega

/-- A supported mode passes the validation of `psvr2_display_set_mode`. -/
theorem supported_mode_passes (mode : psvr2_mode) (h : supported_mode mode) :
    ¬ ((mode.width.val ≠ 2000 ∧ mode.width.val ≠ 4000) ∨ (mode.height.val ≠ 2040) ∨
      (mode.refresh_rate.val ≠ 90 ∧ mode.refresh_rate.val ≠ 120)) := by
  unfold supported_mode at h
  omega

/-- What `psvr2_display_set_mode` does on a supported mode: it fills the first
seven bytes of the control buffer, issues one control transfer, and then returns
the transfer's error or sets `display_active`. -/
theorem set_mode_supported (r : Int) (dev : psvr2_device) (k : Kernel) (mode : psvr2_mode)
    (h : supported_mode mode) :
    ∃ buf : Buffer,
      Buffer.payload buf 7 =
        [PSVR2_SET_DISPLAY_MODE, to_u8 ((mode.width.val >>> 8) &&& 0xFF),
         to_u8 (mode.width.val &&& 0xFF), to_u8 ((mode.height.val >>> 8) &&& 0xFF),
         to_u8 (mode.height.val &&& 0xFF), mode.refresh_rate, mode.flags] ∧
      psvr2_display_set_mode r dev k mode =
        if r < 0 then
          (r, { dev with control_buffer := buf },
            k.call (.usb_control_msg dev.udev 0x09 0x21 0x0300 0 (Buffer.payload buf 7) 1000 r))
        else
          (0, { dev with control_buffer := buf,
                         status := { dev.status with display_active := 1 } },
            k.call (.usb_control_msg dev.udev 0x09 0x21 0x0300 0 (Buffer.payload buf 7) 1000 r)) := by
  refine ⟨?buf, ?h1, ?h2⟩
  case h2 =>
    unfold psvr2_display_set_mode
    rw [if_neg (supported_mode_passes mode h)]
    exact rfl
  case h1 => rfl

/-- C3: for a mode with width 2000 or 4000, height 2040, refresh rate 90 or 120
and any flags byte, `psvr2_display_set_mode` issues exactly one control transfer,
whose payload is the first seven bytes of the control buffer: the command tag
`PSVR2_SET_DISPLAY_MODE` = 0x02, the big-endian bytes of the width, the
big-endian bytes of the height, the refresh rate and the flags. -/
theorem set_mode_payload (r : Int) (dev : psvr2_device) (k : Kernel) (mode : psvr2_mode)
    (hw : mode.width.val = 2000 ∨ mode.width.val = 4000) (hh : mode.height.val = 2040)
    (hr : mode.refresh_rate.val = 90 ∨ mode.refresh_rate.val = 120) :
    ∃ b1 b2 b3 b4 : u8,
      (psvr2_display_set_mode r dev k mode).2.2.trace = k.trace ++
        [.usb_control_msg dev.udev 0x09 0x21 0x0300 0
          [PSVR2_SET_DISPLAY_MODE, b1, b2, b3, b4, mode.refresh_rate, mode.flags] 1000 r] ∧
      Buffer.payload (psvr2_display_set_mode r dev k mode).2.1.control_buffer 7 =
        [PSVR2_SET_DISPLAY_MODE, b1, b2, b3, b4, mode.refresh_rate, mode.flags] ∧
      [PSVR2_SET_DISPLAY_MODE, b1, b2, b3, b4, mode.refresh_rate, mode.flags].length = 7 ∧
      PSVR2_SET_DISPLAY_MODE.val = 0x02 ∧
      256 * b1.val + b2.val = mode.width.val ∧
      256 * b3.val + b4.val = mode.height.val := by
  obtain ⟨buf, hp, he⟩ := set_mode_supported r dev k mode ⟨hw, hh, hr⟩
  refine ⟨to_u8 ((mode.width.val >>> 8) &&& 0xFF), to_u8 (mode.width.val &&& 0xFF),
    to_u8 ((mode.height.val >>> 8) &&& 0xFF), to_u8 (mode.height.val &&& 0xFF),
    ?_, ?_, rfl, rfl, be16_encode _, be16_encode _⟩
  · rw [he]
    split <;> simp only [Kernel.call, hp]
  · rw [he]
    split <;> exact hp

/-- Instance of C3: the mode 4000x2040 at 120 Hz with flags 0x5A, on a session
whose transfer succeeds. -/
theorem set_mode_payload_witness :
    ∃ b1 b2 b3 b4 : u8,
      (psvr2_display_set_mode 7 (sample_device ⟨1, 0, 0, 0⟩) idle_kernel
        ⟨4000, 2040, 120, 0x5A⟩).2.2.trace = idle_kernel.trace ++
        [.usb_control_msg 2 0x09 0x21 0x0300 0
          [PSVR2_SET_DISPLAY_MODE, b1, b2, b3, b4, 120, 0x5A] 1000 7] ∧
      256 * b1.val + b2.val = 4000 ∧ 256 * b3.val + b4.val = 2040 := by
  obtain ⟨b1, b2, b3, b4, h1, _, _, _, h5, h6⟩ :=
    set_mode_payload 7 (sample_device ⟨1, 0, 0, 0⟩) idle_kernel ⟨4000, 2040, 120, 0x5A⟩
      (Or.inr rfl) rfl (Or.inr rfl)
  exact ⟨b1, b2, b3, b4, h1, h5, h6⟩

/-- C4: for a mode outside the supported set (width neither 2000 nor 4000, or
height other than 2040, or refresh rate neither 90 nor 120) `psvr2_display_set_mode`
returns `-EINVAL`, makes no kernel call at all (so no transfer), and leaves the
session, with its status, current mode and control buffer, as it was. -/
theorem set_mode_unsupported (r : Int) (dev : psvr2_device) (k : Kernel) (mode : psvr2_mode)
    (h : (mode.width.val ≠ 2000 ∧ mode.width.val ≠ 4000) ∨ mode.height.val ≠ 2040 ∨
      (mode.refresh_rate.val ≠ 90 ∧ mode.refresh_rate.val ≠ 120)) :
    psvr2_display_set_mode r dev k mode = (-EINVAL, dev, k) ∧
    (psvr2_display_set_mode r dev k mode).2.2.trace = k.trace ∧
    (psvr2_display_set_mode r dev k mode).2.1.status = dev.status ∧
    (psvr2_display_set_mode r dev k mode).2.1.current_mode = dev.current_mode ∧
    (psvr2_display_set_mode r dev k mode).2.1.control_buffer = dev.control_buffer := by
  have he : psvr2_display_set_mode r dev k mode = (-EINVAL, dev, k) := by
    unfold psvr2_display_set_mode
    rw [if_pos h]
  rw [he]
  exact ⟨rfl, rfl, rfl, rfl, rfl⟩

/-- Instance of C4: width 1920 is rejected with `-EINVAL` = -22 and no kernel call. -/
theorem set_mode_unsupported_witness :
    psvr2_display_set_mode 7 (sample_device ⟨1, 0, 0, 0⟩) idle_kernel ⟨1920, 2040, 90, 0⟩
      = (-22, sample_device ⟨1, 0, 0, 0⟩, idle_kernel) :=
  (set_mode_unsupported 7 (sample_device ⟨1, 0, 0, 0⟩) idle_kernel ⟨1920, 2040, 90, 0⟩
    (Or.inl ⟨by decide, by decide⟩)).1

/-- The SET_MODE command is neither of the other two commands. -/
theorem ioctl_set_mode_ne :
    PSVR2_IOCTL_SET_MODE ≠ PSVR2_IOCTL_GET_STATUS ∧ PSVR2_IOCTL_SET_MODE ≠ PSVR2_IOCTL_RESET := by
  decide

/-- The SET_MODE branch of the ioctl handler when the mode is copied in. -/
theorem ioctl_set_mode_eq (c2u : Nat) (mode : psvr2_mode) (r : Int) (dev : psvr2_device)
    (k : Kernel) :
    psvr2_adapter_ioctl c2u 0 mode r dev k PSVR2_IOCTL_SET_MODE =
      let res := psvr2_display_set_mode r dev
        ((k.call (.mutex_lock dev.addr)).call (.copy_from_user 0)) mode
      if res.1 = 0 then
        (res.1, { res.2.1 with current_mode := mode }, res.2.2.call (.mutex_unlock res.2.1.addr))
      else
        (res.1, res.2.1, res.2.2.call (.mutex_unlock res.2.1.addr)) := by
  unfold psvr2_adapter_ioctl
  simp only [if_neg ioctl_set_mode_ne.1, if_true, ne_eq, not_true_eq_false, if_false]
  split <;> rfl

/-- C5: for a supported mode whose control transfer succeeds (result not
negative), `psvr2_display_set_mode` returns 0 and sets `display_active`, and the
SET_MODE ioctl returns 0, sets `status.display_active` to 1 (the other status
fields keep their values) and records the requested mode, all four fields, in
`current_mode`. -/
theorem set_mode_success (c2u : Nat) (r : Int) (dev : psvr2_device) (k : Kernel)
    (mode : psvr2_mode) (h : supported_mode mode) (hr : 0 ≤ r) :
    (psvr2_display_set_mode r dev k mode).1 = 0 ∧
    (psvr2_display_set_mode r dev k mode).2.1.status.display_active = 1 ∧
    (psvr2_adapter_ioctl c2u 0 mode r dev k PSVR2_IOCTL_SET_MODE).1 = 0 ∧
    (psvr2_adapter_ioctl c2u 0 mode r dev k PSVR2_IOCTL_SET_MODE).2.1.status =
      { dev.status with display_active := 1 } ∧
    (psvr2_adapter_ioctl c2u 0 mode r dev k PSVR2_IOCTL_SET_MODE).2.1.current_mode = mode ∧
    (psvr2_adapter_ioctl c2u 0 mode r dev k PSVR2_IOCTL_SET_MODE).2.1.current_mode.width
      = mode.width ∧
    (psvr2_adapter_ioctl c2u 0 mode r dev k PSVR2_IOCTL_SET_MODE).2.1.current_mode.height
      = mode.height ∧
    (psvr2_adapter_ioctl c2u 0 mode r dev k PSVR2_IOCTL_SET_MODE).2.1.current_mode.refresh_rate
      = mode.refresh_rate ∧
    (psvr2_adapter_ioctl c2u 0 mode r dev k PSVR2_IOCTL_SET_MODE).2.1.current_mode.flags
      = mode.flags := by
  have hn : ¬ r < 0 := by omega
  obtain ⟨buf, -, he⟩ := set_mode_supported r dev k mode h
  obtain ⟨buf', -, he'⟩ := set_mode_supported r dev
    ((k.call (.mutex_lock dev.addr)).call (.copy_from_user 0)) mode h
  rw [if_neg hn] at he he'
  rw [ioctl_set_mode_eq, he, he']
  simp only [if_true, and_self]

/-- Instance of C5: 4000x2040 at 120 Hz on a session with the display inactive. -/
theorem set_mode_success_witness :
    (psvr2_adapter_ioctl 0 0 ⟨4000, 2040, 120, 0⟩ 7 (sample_device ⟨1, 0, 0, 0⟩) idle_kernel
      PSVR2_IOCTL_SET_MODE).1 = 0 ∧
    (psvr2_adapter_ioctl 0 0 ⟨4000, 2040, 120, 0⟩ 7 (sample_device ⟨1, 0, 0, 0⟩) idle_kernel
      PSVR2_IOCTL_SET_MODE).2.1.status = ⟨1, 1, 0, 0⟩ ∧
    (psvr2_adapter_ioctl 0 0 ⟨4000, 2040, 120, 0⟩ 7 (sample_device ⟨1, 0, 0, 0⟩) idle_kernel
      PSVR2_IOCTL_SET_MODE).2.1.current_mode = ⟨4000, 2040, 120, 0⟩ :=
  have h := set_mode_success 0 7 (sample_device ⟨1, 0, 0, 0⟩) idle_kernel ⟨4000, 2040, 120, 0⟩
    (by decide) (by decide)
  ⟨h.2.2.1, h.2.2.2.1, h.2.2.2.2.1⟩

/-- C6: for a supported mode whose control transfer fails or times out with a
negative error `r`, `psvr2_display_set_mode` and the SET_MODE ioctl return exactly
`r`, and the status (with `display_active`) and `current_mode` are the prior ones. -/
theorem set_mode_transport_error (c2u : Nat) (r : Int) (dev : psvr2_device) (k : Kernel)
    (mode : psvr2_mode) (h : supported_mode mode) (hr : r < 0) :
    (psvr2_display_set_mode r dev k mode).1 = r ∧
    (psvr2_display_set_mode r dev k mode).2.1.status = dev.status ∧
    (psvr2_display_set_mode r dev k mode).2.1.current_mode = dev.current_mode ∧
    (psvr2_adapter_ioctl c2u 0 mode r dev k PSVR2_IOCTL_SET_MODE).1 = r ∧
    (psvr2_adapter_ioctl c2u 0 mode r dev k PSVR2_IOCTL_SET_MODE).2.1.status = dev.status ∧
    (psvr2_adapter_ioctl c2u 0 mode r dev k PSVR2_IOCTL_SET_MODE).2.1.current_mode
      = dev.current_mode := by
  have hne : r ≠ 0 := by omega
  obtain ⟨buf, -, he⟩ := set_mode_supported r dev k mode h
  obtain ⟨buf', -, he'⟩ := set_mode_supported r dev
    ((k.call (.mutex_lock dev.addr)).call (.copy_from_user 0)) mode h
  rw [if_pos hr] at he he'
  rw [ioctl_set_mode_eq, he, he']
  simp only [if_neg hne, and_self]

/-- Instance of C6: a timed-out transfer (`-ETIMEDOUT` = -110) on a session whose
display is active in mode 2000x2040 at 90 Hz. -/
theorem set_mode_transport_error_witness :
    (psvr2_adapter_ioctl 0 0 ⟨4000, 2040, 120, 0⟩ (-110) (sample_device ⟨1, 1, 0, 0⟩)
      idle_kernel PSVR2_IOCTL_SET_MODE).1 = -110 ∧
    (psvr2_adapter_ioctl 0 0 ⟨4000, 2040, 120, 0⟩ (-110) (sample_device ⟨1, 1, 0, 0⟩)
      idle_kernel PSVR2_IOCTL_SET_MODE).2.1.status = ⟨1, 1, 0, 0⟩ ∧
    (psvr2_adapter_ioctl 0 0 ⟨4000, 2040, 120, 0⟩ (-110) (sample_device ⟨1, 1, 0, 0⟩)
      idle_kernel PSVR2_IOCTL_SET_MODE).2.1.current_mode = ⟨2000, 2040, 90, 0⟩ :=
  have h := set_mode_transport_error 0 (-110) (sample_device ⟨1, 1, 0, 0⟩) idle_kernel
    ⟨4000, 2040, 120, 0⟩ (by decide) (by decide)
  ⟨h.2.2.2.1, h.2.2.2.2.1, h.2.2.2.2.2⟩

/-! ### Starting and stopping the stream -/

/-- C7 (the code departs from the claim): on a session that is tracking, with its
transfer in flight, a stop whose control transfer times out (`-ETIMEDOUT` = -110)
cancels the transfer, returns -110, and leaves `tracking_active` at 1. -/
theorem stop_failed_command_leaves_tracking_active :
    (psvr2_input_stop (-110) (sample_device ⟨1, 0, 1, 0⟩) armed_kernel).1 = -110 ∧
    (psvr2_input_stop (-110) (sample_device ⟨1, 0, 1, 0⟩) armed_kernel).2.1.status.tracking_active
      = 1 ∧
    (psvr2_input_stop (-110) (sample_device ⟨1, 0, 1, 0⟩) armed_kernel).2.2.inflight = [] ∧
    (psvr2_input_stop (-110) (sample_device ⟨1, 0, 1, 0⟩) armed_kernel).2.2.trace =
      [.usb_kill_urb 10, .usb_control_msg 2 0x09 0x21 0x0301 0 [0x02] 1000 (-110)] := by
  refine ⟨rfl, rfl, ?_, rfl⟩
  decide

/-- What `psvr2_input_start` does once the start command has succeeded: it
returns what arming returns, and sets `tracking_active` only if that is 0. -/
theorem start_after_command (cr sr : Int) (dev : psvr2_device) (k : Kernel) (hcr : 0 ≤ cr) :
    psvr2_input_start cr sr dev k =
      match psvr2_input_submit_urb sr (start_command_sent cr dev k).1
        (start_command_sent cr dev k).2 with
      | none => none
      | some (ret, k') =>
        if ret ≠ 0 then some (ret, (start_command_sent cr dev k).1, k')
        else some (0, { (start_command_sent cr dev k).1 with
          status := { dev.status with tracking_active := 1 } }, k') := by
  have hn : ¬ cr < 0 := by omega
  simp only [psvr2_input_start, start_command_sent, if_neg hn]

/-- C8, counterexample: on a session whose `tracking_active` is 1, a start whose
command succeeds (1 byte sent) and whose arming fails with `-ENOMEM` = -12 returns
-12 with `tracking_active` still 1, not false. -/
theorem start_arming_failure_counterexample :
    ∃ dev' k', psvr2_input_start 1 (-12) (sample_device ⟨1, 0, 1, 0⟩) idle_kernel
        = some (-12, dev', k') ∧
      dev'.status.tracking_active = 1 ∧ dev'.status.tracking_active ≠ 0 :=
  ⟨_, _, rfl, rfl, by decide⟩

/-- C8, amended: if the start command of `psvr2_input_start` succeeds and arming
the receive transfer (`psvr2_input_submit_urb`) fails with error `e`, then
`psvr2_input_start` returns `e` and the status, `tracking_active` included, is
what it was before the call; so `tracking_active` is false afterwards whenever it
was false before. -/
theorem start_arming_failure (cr sr e : Int) (dev : psvr2_device) (k k' : Kernel)
    (hcr : 0 ≤ cr)
    (harm : psvr2_input_submit_urb sr (start_command_sent cr dev k).1
      (start_command_sent cr dev k).2 = some (e, k'))
    (he : e ≠ 0) :
    ∃ dev', psvr2_input_start cr sr dev k = some (e, dev', k') ∧
      dev'.status = dev.status ∧
      (dev.status.tracking_active = 0 → dev'.status.tracking_active = 0) := by
  refine ⟨(start_command_sent cr dev k).1, ?_, rfl, fun h => h⟩
  rw [start_after_command cr sr dev k hcr, harm]
  simp only [ne_eq, he, not_false_eq_true, if_true]

/-- Instance of the amended C8: on a session that is not tracking, arming fails
with `-ENOMEM` = -12 after a successful command; the start returns -12 and
`tracking_active` stays 0. -/
theorem start_arming_failure_witness :
    ∃ dev', psvr2_input_start 1 (-12) (sample_device ⟨1, 0, 0, 0⟩) idle_kernel
        = some (-12, dev', (start_command_sent 1 (sample_device ⟨1, 0, 0, 0⟩) idle_kernel).2.call
            (.usb_fill_int_urb 10 2 0x81 (some 11) 64 1) |>.call (.msleep 10)
            |>.call (.usb_submit_urb 10 (-12))) ∧
      dev'.status = ⟨1, 0, 0, 0⟩ ∧
      ((sample_device ⟨1, 0, 0, 0⟩).status.tracking_active = 0 →
        dev'.status.tracking_active = 0) :=
  start_arming_failure 1 (-12) (-12) (sample_device ⟨1, 0, 0, 0⟩) idle_kernel _
    (by decide) rfl (by decide)

/-! ### Attach -/

/-- Every kernel call is added at the end of the trace. -/
theorem call_trace (k : Kernel) (c : KCall) : (k.call c).trace = k.trace ++ [c] := rfl

/-- Accepting a transfer leaves the trace alone. -/
theorem submitted_trace (k : Kernel) (urb : Nat) (r : Int) :
    (k.submitted urb r).trace = k.trace := by
  unfold Kernel.submitted
  split <;> rfl

/-- A kernel state is later than itself. -/
theorem grows_refl (k : Kernel) : k.grows k := ⟨[], (List.append_nil _).symm⟩

/-- Being later is transitive. -/
theorem grows_trans {k k' k'' : Kernel} (h : k.grows k') (h' : k'.grows k'') : k.grows k'' := by
  obtain ⟨r, hr⟩ := h
  obtain ⟨r', hr'⟩ := h'
  exact ⟨r ++ r', by rw [hr', hr, List.append_assoc]⟩

/-- A change that leaves the trace alone keeps a state later. -/
theorem grows_of_trace_eq {k k' k'' : Kernel} (h : k.grows k') (he : k''.trace = k'.trace) :
    k.grows k'' := by
  obtain ⟨r, hr⟩ := h
  exact ⟨r, by rw [he, hr]⟩

/-- A kernel call leads to a later state. -/
theorem grows_call {k k' : Kernel} (c : KCall) (h : k.grows k') : k.grows (k'.call c) :=
  grows_trans h ⟨[c], rfl⟩

/-- Accepting a transfer leads to a later state. -/
theorem grows_submitted {k k' : Kernel} (urb : Nat) (r : Int) (h : k.grows k') :
    k.grows (k'.submitted urb r) :=
  grows_of_trace_eq h (submitted_trace _ _ _)

/-- Arming appends to the trace. -/
theorem submit_urb_grows (sr : Int) (dev : psvr2_device) (k : Kernel) (r : Int) (k' : Kernel)
    (h : psvr2_input_submit_urb sr dev k = some (r, k')) : k.grows k' := by
  unfold psvr2_input_submit_urb at h
  split at h
  · simp only [Option.some.injEq, Prod.mk.injEq] at h
    rw [← h.2]
    exact grows_refl k
  · split at h
    · exact absurd h (by simp)
    · split at h
      · exact absurd h (by simp)
      · simp only [Option.some.injEq, Prod.mk.injEq] at h
        rw [← h.2]
        exact grows_submitted _ _ (grows_call _ (grows_call _ (grows_call _ (grows_refl k))))

/-- Arming does not fault when the transfer exists. -/
theorem submit_urb_some (sr : Int) (dev : psvr2_device) (k : Kernel) (tu : psvr2_input_urb)
    (urb : Nat) (h1 : k.tracking_urb = some tu) (h2 : tu.urb = some urb) :
    ∃ res, psvr2_input_submit_urb sr dev k = some res := by
  unfold psvr2_input_submit_urb
  split
  · exact ⟨_, rfl⟩
  · simp only [h1, h2]
    exact ⟨_, rfl⟩

/-- Starting appends to the trace. -/
theorem start_grows (cr sr : Int) (dev : psvr2_device) (k : Kernel)
    (res : Int × psvr2_device × Kernel) (h : psvr2_input_start cr sr dev k = some res) :
    k.grows res.2.2 := by
  unfold psvr2_input_start at h
  simp only at h
  split at h
  · simp only [Option.some.injEq] at h
    rw [← h]
    exact grows_call _ (grows_refl k)
  · split at h
    · exact absurd h (by simp)
    · rename_i ret k' hs
      have hg := grows_trans (grows_call _ (grows_refl k)) (submit_urb_grows _ _ _ _ _ hs)
      split at h <;> simp only [Option.some.injEq] at h <;> rw [← h] <;> exact hg

/-- Starting does not fault when the transfer exists. -/
theorem start_some (cr sr : Int) (dev : psvr2_device) (k : Kernel) (tu : psvr2_input_urb)
    (urb : Nat) (h1 : k.tracking_urb = some tu) (h2 : tu.urb = some urb) :
    ∃ res, psvr2_input_start cr sr dev k = some res := by
  unfold psvr2_input_start
  simp only
  split
  · exact ⟨_, rfl⟩
  · obtain ⟨⟨r, k'⟩, hres⟩ := submit_urb_some sr
      { dev with control_buffer := Function.update dev.control_buffer 0 0x01 }
      (k.call (.usb_control_msg dev.udev 0x09 0x21 0x0301 0
        (Buffer.payload (Function.update dev.control_buffer 0 0x01) 1) 1000 cr)) tu urb h1 h2
    rw [hres]
    simp only
    split <;> exact ⟨_, rfl⟩

/-- Starting does not fault when the transfer exists. -/
theorem start_ne_none (cr sr : Int) (dev : psvr2_device) (k : Kernel) (tu : psvr2_input_urb)
    (urb : Nat) (h1 : k.tracking_urb = some tu) (h2 : tu.urb = some urb) :
    psvr2_input_start cr sr dev k ≠ none := by
  obtain ⟨res, hres⟩ := start_some cr sr dev k tu urb h1 h2
  rw [hres]
  exact Option.some_ne_none res

/-- The unwinding of `psvr2_input_init` from `error_urb_alloc` only appends calls. -/
theorem grows_input_error_urb_alloc {k k' : Kernel} (h : k.grows k') :
    k.grows (input_init_error_urb_alloc k') :=
  grows_of_trace_eq (grows_call _ h) rfl

/-- The unwinding of `psvr2_input_init` from `error_buffer_alloc` only appends calls. -/
theorem grows_input_error_buffer_alloc {k k' : Kernel} (urb : Nat) (h : k.grows k') :
    k.grows (input_init_error_buffer_alloc urb k') :=
  grows_input_error_urb_alloc (grows_call _ h)

/-- The unwinding of `psvr2_input_init` from `error_input_alloc` only appends calls. -/
theorem grows_input_error_input_alloc {k k' : Kernel} (dev : psvr2_device) (urb : Nat)
    (buffer : Nat × Nat) (h : k.grows k') :
    k.grows (input_init_error_input_alloc dev urb buffer k') :=
  grows_input_error_buffer_alloc urb (grows_call _ h)

/-- `psvr2_input_init` never faults, and it appends to the trace. -/
theorem input_init_some (env : InputInitEnv) (dev : psvr2_device) (k : Kernel) :
    ∃ res, psvr2_input_init env dev k = some res ∧ k.grows res.2.2 := by
  obtain ⟨kz, au, ac, ia, ir, cm, su⟩ := env
  cases kz
  · exact ⟨_, rfl, grows_of_trace_eq (grows_call _ (grows_refl k)) rfl⟩
  cases au with
  | none =>
    exact ⟨_, rfl, grows_input_error_urb_alloc
      (grows_of_trace_eq (grows_call _ (grows_call _ (grows_refl k))) rfl)⟩
  | some urb =>
    cases ac with
    | none =>
      exact ⟨_, rfl, grows_input_error_buffer_alloc urb
        (grows_of_trace_eq (grows_call _ (grows_call _ (grows_call _ (grows_refl k)))) rfl)⟩
    | some buffer =>
      cases ia with
      | none =>
        exact ⟨_, rfl, grows_input_error_input_alloc dev urb buffer
          (grows_of_trace_eq (grows_call _ (grows_call _ (grows_call _ (grows_call _
            (grows_refl k))))) rfl)⟩
      | some idev =>
        have hk : k.grows
            ({ ({ ({ (k.call (.kzalloc .tracking_urb true)).call (.usb_alloc_urb (some urb)) with
                tracking_urb := some { dev := dev.addr, urb := some urb, buffer := none,
                                       dma := 0 } } : Kernel).call
                  (.usb_alloc_coherent dev.udev (some buffer.1)) with
                tracking_urb := some { dev := dev.addr, urb := some urb,
                                       buffer := some buffer.1, dma := buffer.2 } } : Kernel).call
                (.input_allocate_device (some idev)) with
              tracking_input_dev := some idev } : Kernel) :=
          grows_of_trace_eq (grows_call _ (grows_call _ (grows_call _ (grows_call _
            (grows_refl k))))) rfl
        by_cases hir : ir = 0
        · subst hir
          simp only [psvr2_input_init, Bool.not_true, Bool.false_eq_true, if_false, ne_eq,
            not_true_eq_false, Option.map_some', Option.getD_some]
          split
          · rename_i heq
            exact absurd heq (start_ne_none _ _ _ _ _ urb rfl rfl)
          · rename_i ret dev' k' heq
            have hg := grows_trans (grows_call _ hk) (start_grows _ _ _ _ _ heq)
            split
            · exact ⟨_, rfl, grows_input_error_input_alloc _ _ _
                (grows_of_trace_eq (grows_call _ hg) rfl)⟩
            · exact ⟨_, rfl, hg⟩
        · simp only [psvr2_input_init, Bool.not_true, Bool.false_eq_true, if_false, ne_eq, hir,
            not_false_eq_true, if_true, Option.map_some', Option.getD_some]
          exact ⟨_, rfl, grows_input_error_input_alloc _ _ _
            (grows_call _ (grows_call _ hk))⟩

/-- `psvr2_input_init` does not fault. -/
theorem input_init_ne_none (env : InputInitEnv) (dev : psvr2_device) (k : Kernel) :
    psvr2_input_init env dev k ≠ none := by
  obtain ⟨res, hres, -⟩ := input_init_some env dev k
  rw [hres]
  exact Option.some_ne_none res

/-- `psvr2_input_init` only appends calls. -/
theorem input_init_grows (env : InputInitEnv) (dev : psvr2_device) (k : Kernel)
    (res : Int × psvr2_device × Kernel) (h : psvr2_input_init env dev k = some res) :
    k.grows res.2.2 := by
  obtain ⟨res', hres, hg⟩ := input_init_some env dev k
  rw [hres, Option.some.injEq] at h
  rw [← h]
  exact hg

/-- Starting changes nothing of the session but the control buffer and the status. -/
theorem start_frame (cr sr : Int) (dev : psvr2_device) (k : Kernel)
    (res : Int × psvr2_device × Kernel) (h : psvr2_input_start cr sr dev k = some res) :
    res.2.1 = { dev with control_buffer := res.2.1.control_buffer, status := res.2.1.status } := by
  unfold psvr2_input_start at h
  simp only at h
  split at h
  · simp only [Option.some.injEq] at h
    rw [← h]
  · split at h
    · exact absurd h (by simp)
    · split at h <;> simp only [Option.some.injEq] at h <;> rw [← h]

/-- Initialising the input subsystem changes nothing of the session but the
control buffer and the status. -/
theorem input_init_frame (env : InputInitEnv) (dev : psvr2_device) (k : Kernel)
    (res : Int × psvr2_device × Kernel) (h : psvr2_input_init env dev k = some res) :
    res.2.1 = { dev with control_buffer := res.2.1.control_buffer, status := res.2.1.status } := by
  unfold psvr2_input_init at h
  simp only at h
  split at h
  · simp only [Option.some.injEq] at h
    rw [← h]
  · split at h
    · simp only [Option.some.injEq] at h
      rw [← h]
    · split at h
      · simp only [Option.some.injEq] at h
        rw [← h]
      · split at h
        · simp only [Option.some.injEq] at h
          rw [← h]
        · split at h
          · simp only [Option.some.injEq] at h
            rw [← h]
          · split at h
            · exact absurd h (by simp)
            · rename_i hs
              have hf := start_frame _ _ _ _ _ hs
              simp only at hf
              split at h <;> simp only [Option.some.injEq] at h <;> rw [← h] <;>
                simp only <;> rw [hf]

/-- The unwinding of the probe from `error_buffers` only appends calls. -/
theorem grows_probe_error_buffers {k k' : Kernel} (addr udev : Nat) (h : k.grows k') :
    k.grows (probe_error_buffers addr udev k') :=
  grows_call _ (grows_call _ (grows_call _ h))

/-- The unwinding of the probe from `error_dev_num` only appends calls. -/
theorem grows_probe_error_dev_num {k k' : Kernel} (dev : psvr2_device) (h : k.grows k') :
    k.grows (probe_error_dev_num dev k') :=
  grows_probe_error_buffers _ _ (grows_call _ (grows_call _ h))

/-- The unwinding of the probe from `error_cdev` only appends calls. -/
theorem grows_probe_error_cdev {k k' : Kernel} (dev : psvr2_device) (h : k.grows k') :
    k.grows (probe_error_cdev dev k') :=
  grows_probe_error_dev_num _ (grows_call _ h)

/-- The unwinding of the probe from `error_class` only appends calls. -/
theorem grows_probe_error_class {k k' : Kernel} (dev : psvr2_device) (h : k.grows k') :
    k.grows (probe_error_class dev k') :=
  grows_probe_error_cdev _ (grows_call _ h)

/-- The unwinding of the probe from `error_device` only appends calls. -/
theorem grows_probe_error_device {k k' : Kernel} (dev : psvr2_device) (h : k.grows k') :
    k.grows (probe_error_device dev k') :=
  grows_probe_error_class _ (grows_call _ h)

/-- The unwinding of the probe from `error_display` only appends calls. -/
theorem grows_probe_error_display {k k' : Kernel} (dev : psvr2_device) (h : k.grows k') :
    k.grows (probe_error_display dev k') :=
  grows_probe_error_device _ (grows_call _ h)

/-- The unwinding of the probe from `error_input` only appends calls. -/
theorem grows_probe_error_input {k k' : Kernel} (dev : psvr2_device) (h : k.grows k') :
    k.grows (probe_error_input dev k') :=
  grows_probe_error_display _ h

/-- On an interface numbered 0 or 3 `psvr2_adapter_probe` goes past the interface
check: it never faults, its first kernel call allocates the session structure,
and a session it publishes carries the endpoints found by the scan. -/
theorem probe_serviced (env : ProbeEnv) (interface : usb_interface) (k : Kernel)
    (h : interface.bInterfaceNumber.val = 0 ∨ interface.bInterfaceNumber.val = 3) :
    ∃ res, psvr2_adapter_probe env interface k = some res ∧
      (k.call (.kzalloc .session env.kzalloc_dev.isSome)).grows res.k ∧
      ∀ dev, res.intfdata = some dev →
        (dev.input_ep, dev.output_ep) = psvr2_adapter_probe_endpoints interface.endpoint (0, 0) := by
  have hc : ¬ (((interface.bInterfaceNumber.val : Nat) : Int) ≠ 0 ∧
      ((interface.bInterfaceNumber.val : Nat) : Int) ≠ 3) := by omega
  obtain ⟨kd, kc, ki, acr, ca, cc, dc, ie⟩ := env
  have h0 := grows_refl (k.call (.kzalloc .session kd.isSome))
  unfold psvr2_adapter_probe psvr2_adapter_probe_with
  simp only [if_neg hc]
  cases kd with
  | none => exact ⟨_, rfl, h0, fun dev hd => by simp at hd⟩
  | some addr =>
    cases kc with
    | none =>
      exact ⟨_, rfl, grows_probe_error_buffers _ _
        (grows_call _ (grows_call _ (grows_call _ (grows_call _ h0)))),
        fun dev hd => by simp at hd⟩
    | some cb =>
      cases ki with
      | none =>
        exact ⟨_, rfl, grows_probe_error_buffers _ _
          (grows_call _ (grows_call _ (grows_call _ (grows_call _ h0)))),
          fun dev hd => by simp at hd⟩
      | some ib =>
        have h1 := grows_call (.alloc_chrdev_region acr.1)
          (grows_call (.kmalloc .input_buffer true) (grows_call (.kmalloc .control_buffer true)
            (grows_call (.usb_get_dev interface.udev) (grows_call (.mutex_init addr) h0))))
        simp only
        split
        · exact ⟨_, rfl, grows_probe_error_dev_num _ h1, fun dev hd => by simp at hd⟩
        · have h2 := grows_call (.cdev_add acr.2 ca) (grows_call .cdev_init h1)
          split
          · exact ⟨_, rfl, grows_probe_error_cdev _ h2, fun dev hd => by simp at hd⟩
          · have h3 := grows_call (.class_create cc) h2
            split
            · exact ⟨_, rfl, grows_probe_error_class _ h3, fun dev hd => by simp at hd⟩
            · have h4 := grows_call (.device_create cc acr.2 dc) h3
              split
              · exact ⟨_, rfl, grows_probe_error_device _ h4, fun dev hd => by simp at hd⟩
              · simp only [psvr2_display_init, lt_self_iff_false, if_false]
                split
                · rename_i heq
                  exact absurd heq (input_init_ne_none _ _ _)
                · rename_i ret dev' k' heq
                  have h5 := grows_trans h4 (input_init_grows _ _ _ _ heq)
                  have hf := input_init_frame _ _ _ _ heq
                  simp only at hf
                  split
                  · exact ⟨_, rfl, grows_probe_error_input _ h5, fun dev hd => by simp at hd⟩
                  · refine ⟨_, rfl, grows_call _ h5, fun dev hd => ?_⟩
                    simp only [Option.some.injEq] at hd
                    rw [← hd, hf]

/-- On an interface numbered neither 0 nor 3 `psvr2_adapter_probe` returns at the
interface check. -/
theorem probe_not_serviced (env : ProbeEnv) (interface : usb_interface) (k : Kernel)
    (h : interface.bInterfaceNumber.val ≠ 0 ∧ interface.bInterfaceNumber.val ≠ 3) :
    psvr2_adapter_probe env interface k = some ⟨-ENODEV, none, k⟩ := by
  have hc : ((interface.bInterfaceNumber.val : Nat) : Int) ≠ 0 ∧
      ((interface.bInterfaceNumber.val : Nat) : Int) ≠ 3 := by omega
  unfold psvr2_adapter_probe psvr2_adapter_probe_with
  simp only [if_pos hc]

/-- C9: on an interface whose number is neither 0 nor 3 `psvr2_adapter_probe`
returns `-ENODEV`, publishes no session and makes no kernel call, so nothing is
allocated and the kernel state is what it was; on interfaces 0 and 3 it goes past
this check: it returns, and its first kernel call is the allocation of the
session structure. -/
theorem probe_interface_check (env : ProbeEnv) (interface : usb_interface) (k : Kernel) :
    (interface.bInterfaceNumber.val ≠ 0 ∧ interface.bInterfaceNumber.val ≠ 3 →
      psvr2_adapter_probe env interface k = some ⟨-ENODEV, none, k⟩) ∧
    (interface.bInterfaceNumber.val = 0 ∨ interface.bInterfaceNumber.val = 3 →
      ∃ res rest, psvr2_adapter_probe env interface k = some res ∧
        res.k.trace = k.trace ++ .kzalloc .session env.kzalloc_dev.isSome :: rest) := by
  constructor
  · exact probe_not_serviced env interface k
  · intro h
    obtain ⟨res, hres, ⟨rest, hrest⟩, -⟩ := probe_serviced env interface k h
    refine ⟨res, rest, hres, ?_⟩
    rw [hrest, call_trace, List.append_assoc, List.singleton_append]

/-- Instance of C9: interface 1 is turned down with `-ENODEV` = -19 and an empty
trace; on interface 0, with an allocation failure for the session structure, the
probe has made the allocation call. -/
theorem probe_interface_check_witness :
    psvr2_adapter_probe sample_env (sample_interface 1 two_in_two_out) boot_kernel
      = some ⟨-19, none, boot_kernel⟩ ∧
    ∃ res rest, psvr2_adapter_probe { sample_env with kzalloc_dev := none }
        (sample_interface 0 two_in_two_out) boot_kernel = some res ∧
      res.k.trace = boot_kernel.trace ++ .kzalloc .session false :: rest :=
  ⟨(probe_interface_check sample_env (sample_interface 1 two_in_two_out) boot_kernel).1
      ⟨by decide, by decide⟩,
   (probe_interface_check { sample_env with kzalloc_dev := none }
      (sample_interface 0 two_in_two_out) boot_kernel).2 (Or.inl rfl)⟩

/-- An endpoint is not both interrupt-in and interrupt-out. -/
theorem not_int_out_of_int_in (ep : usb_endpoint_descriptor) (h : usb_endpoint_is_int_in ep = true) :
    usb_endpoint_is_int_out ep = false := by
  unfold usb_endpoint_is_int_in at h
  unfold usb_endpoint_is_int_out
  simp only [Bool.and_eq_true, beq_iff_eq] at h
  simp only [Bool.and_eq_false_imp, beq_iff_eq, beq_eq_false_iff_ne]
  intro h'
  omega

/-- The endpoint scan, from any starting values: each value is replaced by the
address of the last matching endpoint, if there is one. -/
theorem probe_endpoints_eq (eps : List usb_endpoint_descriptor) (a b : Nat) :
    psvr2_adapter_probe_endpoints eps (a, b) =
      (endpoint_address (last_endpoint usb_endpoint_is_int_in eps) a,
       endpoint_address (last_endpoint usb_endpoint_is_int_out eps) b) := by
  induction eps generalizing a b with
  | nil => rfl
  | cons ep rest ih =>
    unfold psvr2_adapter_probe_endpoints
    simp only [last_endpoint, List.reverse_cons, List.find?_append] at ih ⊢
    by_cases hin : usb_endpoint_is_int_in ep = true
    · have hout := not_int_out_of_int_in ep hin
      rw [if_pos hin, ih]
      simp only [List.find?, hin, hout]
      cases List.find? usb_endpoint_is_int_in rest.reverse <;>
        cases List.find? usb_endpoint_is_int_out rest.reverse <;> rfl
    · rw [if_neg hin]
      simp only [Bool.not_eq_true] at hin
      by_cases hout : usb_endpoint_is_int_out ep = true
      · rw [if_pos hout, ih]
        simp only [List.find?, hin, hout]
        cases List.find? usb_endpoint_is_int_in rest.reverse <;>
          cases List.find? usb_endpoint_is_int_out rest.reverse <;> rfl
      · rw [if_neg hout, ih]
        simp only [Bool.not_eq_true] at hout
        simp only [List.find?, hin, hout]
        cases List.find? usb_endpoint_is_int_in rest.reverse <;>
          cases List.find? usb_endpoint_is_int_out rest.reverse <;> rfl

/-- C10, counterexample: with interrupt-in endpoints 0x81, 0x82 and interrupt-out
endpoints 0x01, 0x02, in this order, the scan leaves `input_ep` = 0x82 and
`output_ep` = 0x02, which are not the first ones (0x81 and 0x01), and a successful
attach publishes a session with these values. -/
theorem probe_endpoints_not_first :
    psvr2_adapter_probe_endpoints two_in_two_out (0, 0) = (0x82, 0x02) ∧
    endpoint_address (first_endpoint usb_endpoint_is_int_in two_in_two_out) 0 = 0x81 ∧
    endpoint_address (first_endpoint usb_endpoint_is_int_out two_in_two_out) 0 = 0x01 ∧
    (psvr2_adapter_probe_endpoints two_in_two_out (0, 0)).1 ≠
      endpoint_address (first_endpoint usb_endpoint_is_int_in two_in_two_out) 0 ∧
    (psvr2_adapter_probe_endpoints two_in_two_out (0, 0)).2 ≠
      endpoint_address (first_endpoint usb_endpoint_is_int_out two_in_two_out) 0 ∧
    ∃ res dev, psvr2_adapter_probe sample_env (sample_interface 0 two_in_two_out) boot_kernel
        = some res ∧ res.ret = 0 ∧ res.intfdata = some dev ∧
      dev.input_ep = 0x82 ∧ dev.output_ep = 0x02 := by
  refine ⟨by decide, by decide, by decide, by decide, by decide, ?_⟩
  exact ⟨_, _, rfl, rfl, rfl, rfl, rfl⟩

/-- C10, amended: for every endpoint array, after the endpoint scan of
`psvr2_adapter_probe` (which starts from the zeroed session structure) `input_ep`
is the address of the last interrupt-in endpoint of the array and `output_ep` the
address of the last interrupt-out endpoint; each is 0 when the array has no such
endpoint; and a session that the probe publishes carries these two values. -/
theorem probe_endpoints_last (eps : List usb_endpoint_descriptor) :
    psvr2_adapter_probe_endpoints eps (0, 0) =
      (endpoint_address (last_endpoint usb_endpoint_is_int_in eps) 0,
       endpoint_address (last_endpoint usb_endpoint_is_int_out eps) 0) ∧
    ((∀ ep ∈ eps, usb_endpoint_is_int_in ep = false) →
      (psvr2_adapter_probe_endpoints eps (0, 0)).1 = 0) ∧
    ((∀ ep ∈ eps, usb_endpoint_is_int_out ep = false) →
      (psvr2_adapter_probe_endpoints eps (0, 0)).2 = 0) ∧
    (∀ env n addr udev k res dev,
      psvr2_adapter_probe env ⟨addr, udev, n, eps⟩ k = some res → res.intfdata = some dev →
        dev.input_ep = endpoint_address (last_endpoint usb_endpoint_is_int_in eps) 0 ∧
        dev.output_ep = endpoint_address (last_endpoint usb_endpoint_is_int_out eps) 0) := by
  refine ⟨probe_endpoints_eq eps 0 0, ?_, ?_, ?_⟩
  · intro h
    have hn : last_endpoint usb_endpoint_is_int_in eps = none := by
      unfold last_endpoint
      rw [List.find?_eq_none]
      intro x hx
      rw [h x (List.mem_reverse.mp hx)]
      exact Bool.false_ne_true
    rw [probe_endpoints_eq, hn]
    rfl
  · intro h
    have hn : last_endpoint usb_endpoint_is_int_out eps = none := by
      unfold last_endpoint
      rw [List.find?_eq_none]
      intro x hx
      rw [h x (List.mem_reverse.mp hx)]
      exact Bool.false_ne_true
    rw [probe_endpoints_eq, hn]
    rfl
  · intro env n addr udev k res dev hres hdev
    by_cases hn : n.val = 0 ∨ n.val = 3
    · obtain ⟨res', hres', -, hep⟩ := probe_serviced env ⟨addr, udev, n, eps⟩ k hn
      rw [hres', Option.some.injEq] at hres
      subst hres
      have := hep dev hdev
      rw [probe_endpoints_eq] at this
      simp only [Prod.mk.injEq] at this
      exact this
    · have hc : n.val ≠ 0 ∧ n.val ≠ 3 := by omega
      have := probe_not_serviced env ⟨addr, udev, n, eps⟩ k hc
      rw [this, Option.some.injEq] at hres
      rw [← hres] at hdev
      simp at hdev

/-- Instance of the amended C10: an interface without interrupt endpoints (one
bulk-in endpoint 0x83) leaves both addresses at 0. -/
theorem probe_endpoints_last_witness :
    (psvr2_adapter_probe_endpoints [⟨0x83, 0x02, 512⟩] (0, 0)).1 = 0 ∧
    (psvr2_adapter_probe_endpoints [⟨0x83, 0x02, 512⟩] (0, 0)).2 = 0 :=
  ⟨(probe_endpoints_last [⟨0x83, 0x02, 512⟩]).2.1 (by decide),
   (probe_endpoints_last [⟨0x83, 0x02, 512⟩]).2.2.1 (by decide)⟩

/-! ### The pump without a streaming endpoint -/

/-- Without a streaming endpoint arming fails at once with `-EINVAL`. -/
theorem submit_urb_no_endpoint (sr : Int) (dev : psvr2_device) (k : Kernel)
    (h : dev.input_ep = 0) : psvr2_input_submit_urb sr dev k = some (-EINVAL, k) := by
  unfold psvr2_input_submit_urb
  rw [if_pos h]

/-- C20, counterexample: on a session without streaming endpoint whose start
command times out (`-ETIMEDOUT` = -110), `psvr2_input_start` returns -110, which
is not the no-endpoint error `-EINVAL` = -22. -/
theorem start_no_endpoint_counterexample :
    (sample_device ⟨1, 0, 0, 0⟩).input_ep = 0x81 ∧
    ({ sample_device ⟨1, 0, 0, 0⟩ with input_ep := 0 } : psvr2_device).input_ep = 0 ∧
    ∃ dev' k', psvr2_input_start (-110) 0 { sample_device ⟨1, 0, 0, 0⟩ with input_ep := 0 }
        idle_kernel = some (-110, dev', k') ∧ (-110 : Int) ≠ -EINVAL :=
  ⟨rfl, rfl, _, _, rfl, by decide⟩

/-- C20, amended: on a session whose streaming endpoint address is 0,
`psvr2_input_submit_urb` returns `-EINVAL` and leaves the kernel state as it was
(no transfer is configured or submitted, no delay); `psvr2_input_start` then makes
the control transfer of the start command and nothing else, returns `-EINVAL` if
that command succeeded and the command's error if it failed, and leaves the
status, `tracking_active` included, and what is in flight as they were. -/
theorem start_no_endpoint (cr sr : Int) (dev : psvr2_device) (k : Kernel)
    (h : dev.input_ep = 0) :
    psvr2_input_submit_urb sr dev k = some (-EINVAL, k) ∧
    ∃ dev' k', psvr2_input_start cr sr dev k
        = some ((if cr < 0 then cr else -EINVAL), dev', k') ∧
      dev'.status = dev.status ∧
      dev'.status.tracking_active = dev.status.tracking_active ∧
      k'.inflight = k.inflight ∧
      k'.trace = k.trace ++ [.usb_control_msg dev.udev 0x09 0x21 0x0301 0 [0x01] 1000 cr] := by
  refine ⟨submit_urb_no_endpoint sr dev k h, ?_⟩
  by_cases hcr : cr < 0
  · rw [if_pos hcr]
    unfold psvr2_input_start
    simp only [if_pos hcr]
    exact ⟨_, _, rfl, rfl, rfl, rfl, rfl⟩
  · have h' : (start_command_sent cr dev k).1.input_ep = 0 := h
    rw [if_neg hcr, start_after_command cr sr dev k (by omega),
      submit_urb_no_endpoint sr _ _ h']
    simp only [ne_eq, show (-EINVAL : Int) ≠ 0 by decide, not_false_eq_true, if_true]
    exact ⟨_, _, rfl, rfl, rfl, rfl, rfl⟩

/-- Instance of the amended C20: a session without streaming endpoint whose start
command succeeds gets `-EINVAL` = -22 and stays not tracking. -/
theorem start_no_endpoint_witness :
    ∃ dev' k', psvr2_input_start 1 0 { sample_device ⟨1, 0, 0, 0⟩ with input_ep := 0 }
        idle_kernel = some (-22, dev', k') ∧
      dev'.status.tracking_active = 0 ∧
      k'.trace = [.usb_control_msg 2 0x09 0x21 0x0301 0 [0x01] 1000 1] := by
  obtain ⟨dev', k', h1, h2, -, -, h5⟩ :=
    (start_no_endpoint 1 0 { sample_device ⟨1, 0, 0, 0⟩ with input_ep := 0 } idle_kernel rfl).2
  exact ⟨dev', k', h1, by rw [h2]; rfl, h5⟩

/-! ### The completion handler -/

/-- Counting arm attempts distributes over concatenation. -/
theorem arm_attempts_append (t t' : List KCall) :
    arm_attempts (t ++ t') = arm_attempts t + arm_attempts t' := by
  unfold arm_attempts
  exact List.countP_append _ _ _

/-- Counting reports distributes over concatenation. -/
theorem reports_append (t t' : List KCall) : reports (t ++ t') = reports t + reports t' := by
  unfold reports
  exact List.countP_append _ _ _

/-- With a transfer to arm and a streaming endpoint, arming configures the
transfer, waits, submits it, and returns what `usb_submit_urb` returns. -/
theorem submit_urb_armed (sr : Int) (dev : psvr2_device) (k : Kernel) (tu : psvr2_input_urb)
    (urb : Nat) (h1 : k.tracking_urb = some tu) (h2 : tu.urb = some urb)
    (hep : dev.input_ep ≠ 0) :
    psvr2_input_submit_urb sr dev k = some (sr,
      (((k.call (.usb_fill_int_urb urb dev.udev dev.input_ep tu.buffer 64 1)).call
        (.msleep 10)).call (.usb_submit_urb urb sr)).submitted urb sr) := by
  unfold psvr2_input_submit_urb
  rw [if_neg hep]
  simp only [h1, h2]

/-- Processing a payload reports to the input subsystem and does nothing else:
it arms nothing and leaves the pump's variables and what is in flight alone. -/
theorem process_data_effect (k : Kernel) (data : Buffer) (size : Int)
    (f : Option psvr2_tracking_data) (kp : Kernel)
    (h : psvr2_input_process_data k data size = some (f, kp)) :
    ∃ rs, kp.trace = k.trace ++ rs ∧ arm_attempts rs = 0 ∧ reports rs = rs.length ∧
      (rs ≠ [] ↔ f ≠ none) ∧
      kp.tracking_urb = k.tracking_urb ∧ kp.tracking_input_dev = k.tracking_input_dev ∧
      kp.inflight = k.inflight := by
  unfold psvr2_input_process_data at h
  split at h
  · split at h
    · exact absurd h (by simp)
    · simp only [Option.some.injEq, Prod.mk.injEq] at h
      obtain ⟨hf, hk⟩ := h
      subst hf hk
      refine ⟨?rs, ?h1, ?h2, ?h3, ?h4, rfl, rfl, rfl⟩
      case h1 =>
        simp only [Kernel.call, List.append_assoc, List.singleton_append, List.cons_append,
          List.nil_append]
        exact rfl
      case h2 => rfl
      case h3 => rfl
      case h4 => simp
  · simp only [Option.some.injEq, Prod.mk.injEq] at h
    obtain ⟨hf, hk⟩ := h
    subst hf hk
    exact ⟨[], (List.append_nil _).symm, rfl, rfl, by simp, rfl, rfl, rfl⟩

/-- Processing a payload does not fault when the input device exists. -/
theorem process_data_some (k : Kernel) (idev : Nat) (data : Buffer) (size : Int)
    (hdev : k.tracking_input_dev = some idev) :
    ∃ f kp, psvr2_input_process_data k data size = some (f, kp) := by
  by_cases h : 14 ≤ size
  · obtain ⟨t, k', h1, -⟩ := process_data_of_ge k idev data size hdev h
    exact ⟨_, _, h1⟩
  · unfold psvr2_input_process_data
    rw [if_neg (by omega)]
    exact ⟨_, _, rfl⟩

/-- Status 0 is not cancellation-class. -/
theorem not_cancellation_zero : ¬ cancellation_class 0 := by decide

/-- Accepting a transfer leaves the pump's variables alone. -/
theorem submitted_tracking_urb (k : Kernel) (urb : Nat) (r : Int) :
    (k.submitted urb r).tracking_urb = k.tracking_urb := by
  unfold Kernel.submitted
  split <;> rfl

/-- With a transfer to arm and a streaming endpoint, arming adds the three calls
to the trace, puts the transfer in flight if it is accepted, and leaves the pump's
variables alone. -/
theorem submit_urb_rearm (sr : Int) (dev : psvr2_device) (k : Kernel) (tu : psvr2_input_urb)
    (urb : Nat) (h1 : k.tracking_urb = some tu) (h2 : tu.urb = some urb)
    (hep : dev.input_ep ≠ 0) :
    ∃ kr, psvr2_input_submit_urb sr dev k = some (sr, kr) ∧
      kr.trace = k.trace ++
        [.usb_fill_int_urb urb dev.udev dev.input_ep tu.buffer 64 1, .msleep 10,
         .usb_submit_urb urb sr] ∧
      kr.inflight = (if sr = 0 then urb :: k.inflight else k.inflight) ∧
      kr.tracking_urb = k.tracking_urb ∧ kr.tracking_input_dev = k.tracking_input_dev := by
  refine ⟨_, submit_urb_armed sr dev k tu urb h1 h2 hep, ?_, ?_, ?_, ?_⟩
  · rw [submitted_trace]
    simp only [Kernel.call, List.append_assoc, List.singleton_append, List.cons_append,
      List.nil_append]
  · unfold Kernel.submitted
    split <;> rfl
  · rw [submitted_tracking_urb]
    rfl
  · unfold Kernel.submitted
    split <;> rfl

/-- The three calls of one arming hold one submit attempt and no report. -/
theorem rearm_counts (urb udev ep : Nat) (buffer : Option Nat) (sr : Int) :
    arm_attempts [.usb_fill_int_urb urb udev ep buffer 64 1, .msleep 10,
      .usb_submit_urb urb sr] = 1 ∧
    reports [.usb_fill_int_urb urb udev ep buffer 64 1, .msleep 10,
      .usb_submit_urb urb sr] = 0 :=
  ⟨rfl, rfl⟩

/-- The pump's transfer, read from the two pointers. -/
theorem pump_urb_eq (k : Kernel) (tu : psvr2_input_urb) (urb : Nat)
    (h1 : k.tracking_urb = some tu) (h2 : tu.urb = some urb) : k.pump_urb = some urb := by
  unfold Kernel.pump_urb
  rw [h1]
  exact h2

/-- With nothing in flight the pump is not armed. -/
theorem not_armed_of_inflight_nil (k : Kernel) (h : k.inflight = []) : ¬ k.armed := by
  rintro ⟨urb, -, hin⟩
  rw [h] at hin
  exact absurd hin (List.not_mem_nil _)

/-- What `psvr2_input_process_data` reports: seven calls (six axis values and the
sync) when the size is at least 14, nothing otherwise. -/
theorem process_data_reports (k : Kernel) (data : Buffer) (size : Int)
    (f : Option psvr2_tracking_data) (kp : Kernel)
    (h : psvr2_input_process_data k data size = some (f, kp)) :
    reports kp.trace = reports k.trace + (if 14 ≤ size then 7 else 0) ∧
    (f ≠ none ↔ 14 ≤ size) := by
  unfold psvr2_input_process_data at h
  by_cases hs : 14 ≤ size
  · have hs' : size ≥ 14 := hs
    rw [if_pos hs'] at h
    split at h
    · exact absurd h (by simp)
    · simp only [Option.some.injEq, Prod.mk.injEq] at h
      obtain ⟨hf, hk⟩ := h
      subst hf hk
      rw [if_pos hs]
      refine ⟨?_, by simp [hs]⟩
      simp only [Kernel.call, List.append_assoc, List.singleton_append, List.cons_append,
        List.nil_append]
      rw [reports_append]
      rfl
  · have hs' : ¬ size ≥ 14 := hs
    rw [if_neg hs'] at h
    simp only [Option.some.injEq, Prod.mk.injEq] at h
    obtain ⟨hf, hk⟩ := h
    subst hf hk
    rw [if_neg hs]
    exact ⟨rfl, by simp [hs]⟩

/-- A length of 2^31 or more, read as `int`, is negative: nothing is reported. -/
theorem u32_to_int_large (n : u32) (h : 2147483648 ≤ n.val) : u32_to_int n < 14 := by
  unfold u32_to_int
  have hn := n.isLt
  rw [if_neg (by omega)]
  omega

/-- C14, counterexample: on the armed kernel state a success completion with the
14-byte sample payload is delivered and the USB core refuses the resubmission
with `-ENODEV` = -19: the frame is published (seven reports), one submit attempt
is made, and afterwards nothing is in flight: the transfer is not re-armed. -/
theorem complete_refused_resubmission :
    armed_kernel.armed ∧ refused_after_frame.status = 0 ∧
    ∃ k', deliver_completion refused_after_frame (sample_device ⟨1, 0, 1, 0⟩) armed_kernel
        = some k' ∧
      reports k'.trace = 7 ∧ arm_attempts k'.trace = 1 ∧ k'.pump_urb = some 10 ∧
      k'.inflight = [] ∧ ¬ k'.armed :=
  ⟨⟨10, rfl, by decide⟩, rfl, _, rfl, by decide, by decide, rfl, rfl,
    not_armed_of_inflight_nil _ rfl⟩

/-- C14, amended: with the pump set up (transfer, input device and streaming
endpoint in place) `psvr2_input_complete` returns for every status and every
length. On status 0 the payload goes through `psvr2_input_process_data` with the
length read as `int`, which publishes a frame (seven reports) exactly when that
length is at least 14, and then one re-arm attempt is made (the transfer is
configured and submitted once). On `-ECONNRESET`, `-ENOENT` or `-ESHUTDOWN` the
kernel state is left as it was: nothing reported, nothing submitted. On any other
status nothing is reported and one re-arm attempt is made. The number of submit
attempts stays the same exactly for the cancellation-class statuses and grows by
one otherwise. After a re-arm attempt the transfer is in flight again when
`usb_submit_urb` accepted it (returned 0), and what is in flight is as before
when it refused: the pump is then not armed. The pump's variables are untouched. -/
theorem complete_by_status (status : Int) (len : u32) (data : Buffer) (sr : Int)
    (dev : psvr2_device) (k : Kernel) (tu : psvr2_input_urb) (urb idev : Nat)
    (h1 : k.tracking_urb = some tu) (h2 : tu.urb = some urb)
    (h3 : k.tracking_input_dev = some idev) (hep : dev.input_ep ≠ 0) :
    ∃ k', psvr2_input_complete status len data sr dev k = some k' ∧
      (status = 0 → ∃ f kp, psvr2_input_process_data k data (u32_to_int len) = some (f, kp) ∧
        (f ≠ none ↔ 14 ≤ u32_to_int len) ∧
        k'.trace = kp.trace ++
          [.usb_fill_int_urb urb dev.udev dev.input_ep tu.buffer 64 1, .msleep 10,
           .usb_submit_urb urb sr]) ∧
      (status = 0 →
        reports k'.trace = reports k.trace + (if 14 ≤ u32_to_int len then 7 else 0)) ∧
      (cancellation_class status → k' = k) ∧
      (status ≠ 0 → ¬ cancellation_class status →
        k'.trace = k.trace ++
          [.usb_fill_int_urb urb dev.udev dev.input_ep tu.buffer 64 1, .msleep 10,
           .usb_submit_urb urb sr]) ∧
      (status ≠ 0 → reports k'.trace = reports k.trace) ∧
      (arm_attempts k'.trace = arm_attempts k.trace ↔ cancellation_class status) ∧
      (¬ cancellation_class status → arm_attempts k'.trace = arm_attempts k.trace + 1) ∧
      (¬ cancellation_class status →
        k'.inflight = (if sr = 0 then urb :: k.inflight else k.inflight)) ∧
      (¬ cancellation_class status → sr = 0 → k'.armed) ∧
      (¬ cancellation_class status → sr ≠ 0 → urb ∉ k.inflight → ¬ k'.armed) ∧
      k'.tracking_urb = k.tracking_urb ∧ k'.tracking_input_dev = k.tracking_input_dev := by
  have harm : ∀ kr : Kernel, kr.tracking_urb = k.tracking_urb →
      kr.inflight = (if sr = 0 then urb :: k.inflight else k.inflight) →
      (sr = 0 → kr.armed) ∧ (sr ≠ 0 → urb ∉ k.inflight → ¬ kr.armed) := by
    intro kr htu hfl
    have hp : kr.pump_urb = some urb := pump_urb_eq kr tu urb (htu.trans h1) h2
    constructor
    · intro hsr
      rw [if_pos hsr] at hfl
      exact ⟨urb, hp, by rw [hfl]; exact List.mem_cons_self _ _⟩
    · intro hsr hnot
      rw [if_neg hsr] at hfl
      rintro ⟨u, hu, hin⟩
      rw [hp, Option.some.injEq] at hu
      rw [hfl, ← hu] at hin
      exact hnot hin
  by_cases hs : status = 0
  · subst hs
    obtain ⟨f, kp, hp⟩ := process_data_some k idev data (u32_to_int len) h3
    obtain ⟨rs, hrs, hrs0, -, -, hpu, hpi, hpf⟩ :=
      process_data_effect k data (u32_to_int len) f kp hp
    obtain ⟨hrep, hf⟩ := process_data_reports k data (u32_to_int len) f kp hp
    obtain ⟨kr, hsub, htr, hfl, htu, hti⟩ :=
      submit_urb_rearm sr dev kp tu urb (hpu.trans h1) h2 hep
    have hcount : arm_attempts kr.trace = arm_attempts k.trace + 1 := by
      rw [htr, hrs, arm_attempts_append, arm_attempts_append, hrs0, (rearm_counts _ _ _ _ _).1]
    rw [hpf] at hfl
    obtain ⟨ha1, ha2⟩ := harm kr (htu.trans hpu) hfl
    refine ⟨kr, ?_, ?_, ?_, ?_, ?_, ?_, ?_, ?_, ?_, ?_, ?_, htu.trans hpu, hti.trans hpi⟩
    · unfold psvr2_input_complete
      simp only [if_true, hp, hsub]
    · intro _
      exact ⟨f, kp, hp, hf, htr⟩
    · intro _
      rw [htr, reports_append, (rearm_counts _ _ _ _ _).2, hrep]
      rfl
    · intro hc
      exact absurd hc not_cancellation_zero
    · intro hne
      exact absurd rfl hne
    · intro hne
      exact absurd rfl hne
    · rw [hcount]
      constructor
      · intro h
        omega
      · intro hc
        exact absurd hc not_cancellation_zero
    · intro _
      exact hcount
    · intro _
      exact hfl
    · intro _
      exact ha1
    · intro _
      exact ha2
  · by_cases hc : cancellation_class status
    · refine ⟨k, ?_, fun h => absurd h hs, fun h => absurd h hs, fun _ => rfl,
        fun _ h => absurd hc h, fun _ => rfl, ⟨fun _ => hc, fun _ => rfl⟩,
        fun h => absurd hc h, fun h => absurd hc h, fun h => absurd hc h,
        fun h => absurd hc h, rfl, rfl⟩
      have hc' : status = -ECONNRESET ∨ status = -ENOENT ∨ status = -ESHUTDOWN := hc
      unfold psvr2_input_complete
      rw [if_neg hs, if_pos hc']
    · obtain ⟨kr, hsub, htr, hfl, htu, hti⟩ := submit_urb_rearm sr dev k tu urb h1 h2 hep
      have hcount : arm_attempts kr.trace = arm_attempts k.trace + 1 := by
        rw [htr, arm_attempts_append, (rearm_counts _ _ _ _ _).1]
      obtain ⟨ha1, ha2⟩ := harm kr htu hfl
      refine ⟨kr, ?_, fun h => absurd h hs, fun h => absurd h hs, fun h => absurd h hc,
        fun _ _ => htr, ?_, ?_, ?_, fun _ => hfl, fun _ => ha1, fun _ => ha2, htu, hti⟩
      · have hc' : ¬ (status = -ECONNRESET ∨ status = -ENOENT ∨ status = -ESHUTDOWN) := hc
        unfold psvr2_input_complete
        rw [if_neg hs, if_neg hc']
        simp only [hsub]
      · intro _
        rw [htr, reports_append, (rearm_counts _ _ _ _ _).2]
        rfl
      · rw [hcount]
        constructor
        · intro h
          omega
        · intro h
          exact absurd h hc
      · intro _
        exact hcount

/-- Instance of C14 on the armed kernel state once its transfer has completed: a
success completion with the sample payload and the resubmission accepted (seven
reports, armed again), a cancelled completion (`-ENOENT` = -2, state unchanged),
a protocol error (`-EPROTO` = -71) with the resubmission refused (not armed), and
a success completion whose length field is 2^32 - 1 (nothing reported). -/
theorem complete_by_status_witness :
    (∃ k', psvr2_input_complete 0 14 sample_payload 0 (sample_device ⟨1, 0, 1, 0⟩)
        (armed_kernel.completed 10) = some k' ∧ arm_attempts k'.trace = 1 ∧
      reports k'.trace = 7 ∧ k'.inflight = [10] ∧ k'.armed) ∧
    psvr2_input_complete (-2) 0 sample_payload 0 (sample_device ⟨1, 0, 1, 0⟩)
      (armed_kernel.completed 10) = some (armed_kernel.completed 10) ∧
    (∃ k', psvr2_input_complete (-71) 0 sample_payload (-19) (sample_device ⟨1, 0, 1, 0⟩)
        (armed_kernel.completed 10) = some k' ∧
      k'.trace = [.usb_fill_int_urb 10 2 0x81 (some 11) 64 1, .msleep 10,
        .usb_submit_urb 10 (-19)] ∧ k'.inflight = [] ∧ ¬ k'.armed) ∧
    (∃ k', psvr2_input_complete 0 4294967295 sample_payload 0 (sample_device ⟨1, 0, 1, 0⟩)
        (armed_kernel.completed 10) = some k' ∧ reports k'.trace = 0) := by
  obtain ⟨ka, ha, -, ha2, -, -, -, -, ha7, ha8, ha9, -⟩ := complete_by_status 0 14
    sample_payload 0 (sample_device ⟨1, 0, 1, 0⟩) (armed_kernel.completed 10) _ 10 12
    rfl rfl rfl (by decide)
  obtain ⟨kb, hb, -, -, hb', -⟩ := complete_by_status (-2) 0 sample_payload 0
    (sample_device ⟨1, 0, 1, 0⟩) (armed_kernel.completed 10) _ 10 12 rfl rfl rfl (by decide)
  obtain ⟨kc, hc, -, -, -, hc', -, -, -, hc8, -, hc10, -⟩ := complete_by_status (-71) 0
    sample_payload (-19) (sample_device ⟨1, 0, 1, 0⟩) (armed_kernel.completed 10) _ 10 12
    rfl rfl rfl (by decide)
  obtain ⟨kd, hd, -, hd2, -⟩ := complete_by_status 0 4294967295
    sample_payload 0 (sample_device ⟨1, 0, 1, 0⟩) (armed_kernel.completed 10) _ 10 12
    rfl rfl rfl (by decide)
  refine ⟨⟨ka, ha, ha7 (by decide), ha2 rfl, ha8 (by decide), ha9 (by decide) rfl⟩, ?_,
    ⟨kc, hc, hc' (by decide) (by decide), hc8 (by decide),
      hc10 (by decide) (by decide) (by decide)⟩, ⟨kd, hd, hd2 rfl⟩⟩
  rw [hb, hb' (by decide)]

/-! ### Repeated transport errors -/

/-- A completion is delivered only while the pump's transfer is in flight. -/
theorem deliver_completion_inflight (c : Completion) (dev : psvr2_device) (k k' : Kernel)
    (urb : Nat) (hp : k.pump_urb = some urb) (h : deliver_completion c dev k = some k') :
    urb ∈ k.inflight := by
  unfold deliver_completion at h
  rw [hp] at h
  simp only at h
  by_contra hn
  rw [if_neg hn] at h
  exact absurd h (by simp)

/-- Delivery of one non-cancellation error completion: the handler configures and
submits the transfer again; the transfer is in flight afterwards exactly when the
resubmission is accepted. -/
theorem deliver_error_completion (c : Completion) (dev : psvr2_device) (k : Kernel)
    (tu : psvr2_input_urb) (urb : Nat)
    (h1 : k.tracking_urb = some tu) (h2 : tu.urb = some urb) (hep : dev.input_ep ≠ 0)
    (hin : urb ∈ k.inflight) (herr : c.status ≠ 0 ∧ ¬ cancellation_class c.status) :
    ∃ k', deliver_completion c dev k = some k' ∧
      k'.trace = k.trace ++
        [.usb_fill_int_urb urb dev.udev dev.input_ep tu.buffer 64 1, .msleep 10,
         .usb_submit_urb urb c.usb_submit_urb_ret] ∧
      k'.inflight = (if c.usb_submit_urb_ret = 0 then urb :: k.inflight.erase urb
        else k.inflight.erase urb) ∧
      k'.tracking_urb = k.tracking_urb ∧ k'.tracking_input_dev = k.tracking_input_dev := by
  obtain ⟨kr, hsub, htr, hfl, htu, hid⟩ := submit_urb_rearm c.usb_submit_urb_ret dev
    (k.completed urb) tu urb h1 h2 hep
  have hc' : ¬ (c.status = -ECONNRESET ∨ c.status = -ENOENT ∨ c.status = -ESHUTDOWN) := herr.2
  refine ⟨kr, ?_, htr, hfl, htu, hid⟩
  unfold deliver_completion
  rw [pump_urb_eq k tu urb h1 h2]
  simp only [if_pos hin]
  unfold psvr2_input_complete
  rw [if_neg herr.1, if_neg hc']
  simp only [hsub]

/-- The number of arm attempts after any delivered sequence of non-cancellation
error completions: one more per completion. -/
theorem error_completions_attempts (dev : psvr2_device) (tu : psvr2_input_urb) (urb : Nat)
    (hep : dev.input_ep ≠ 0) (h2 : tu.urb = some urb) (cs : List Completion) :
    ∀ k kN : Kernel, k.tracking_urb = some tu →
      (∀ c ∈ cs, c.status ≠ 0 ∧ ¬ cancellation_class c.status) →
      deliver_completions dev cs k = some kN →
      arm_attempts kN.trace = arm_attempts k.trace + cs.length := by
  induction cs with
  | nil =>
    intro k kN _ _ h
    simp only [deliver_completions, Option.some.injEq] at h
    rw [← h]
    rfl
  | cons c cs ih =>
    intro k kN h1 herr h
    unfold deliver_completions at h
    split at h
    · exact absurd h (by simp)
    · rename_i k' hd
      have hin := deliver_completion_inflight c dev k k' urb (pump_urb_eq k tu urb h1 h2) hd
      obtain ⟨k'', hd', htr, -, htu, -⟩ := deliver_error_completion c dev k tu urb h1 h2 hep hin
        (herr c (List.mem_cons_self _ _))
      rw [hd', Option.some.injEq] at hd
      subst hd
      have := ih k'' kN (htu.trans h1) (fun c' hc' => herr c' (List.mem_cons_of_mem _ hc')) h
      rw [this, htr, arm_attempts_append, (rearm_counts _ _ _ _ _).1, List.length_cons]
      omega

/-- When every resubmission is accepted, any sequence of non-cancellation error
completions can be delivered, and the pump's transfer is in flight afterwards. -/
theorem error_completions_armed (dev : psvr2_device) (tu : psvr2_input_urb) (urb : Nat)
    (hep : dev.input_ep ≠ 0) (h2 : tu.urb = some urb) (cs : List Completion) :
    ∀ k : Kernel, k.tracking_urb = some tu → urb ∈ k.inflight →
      (∀ c ∈ cs, c.status ≠ 0 ∧ ¬ cancellation_class c.status) →
      (∀ c ∈ cs, c.usb_submit_urb_ret = 0) →
      ∃ kN, deliver_completions dev cs k = some kN ∧ kN.tracking_urb = some tu ∧
        urb ∈ kN.inflight := by
  induction cs with
  | nil =>
    intro k h1 hin _ _
    exact ⟨k, rfl, h1, hin⟩
  | cons c cs ih =>
    intro k h1 hin herr hacc
    obtain ⟨k', hd, -, hfl, htu, -⟩ := deliver_error_completion c dev k tu urb h1 h2 hep hin
      (herr c (List.mem_cons_self _ _))
    rw [if_pos (hacc c (List.mem_cons_self _ _))] at hfl
    obtain ⟨kN, hN, htN, hinN⟩ := ih k' (htu.trans h1) (by rw [hfl]; exact List.mem_cons_self _ _)
      (fun c' hc' => herr c' (List.mem_cons_of_mem _ hc'))
      (fun c' hc' => hacc c' (List.mem_cons_of_mem _ hc'))
    refine ⟨kN, ?_, htN, hinN⟩
    unfold deliver_completions
    rw [hd]
    exact hN

/-- C15, counterexample: after the initial arm on the idle kernel state, one
protocol-error completion whose resubmission is refused (`-ENODEV` = -19) gives 2
submit attempts and leaves no transfer in flight: the pump is not armed. -/
theorem error_completion_leaves_idle :
    ∃ k0 k1, psvr2_input_submit_urb 0 (sample_device ⟨1, 0, 1, 0⟩) idle_kernel = some (0, k0) ∧
      k0.inflight = [10] ∧
      deliver_completions (sample_device ⟨1, 0, 1, 0⟩) [protocol_error (-19)] k0 = some k1 ∧
      arm_attempts k1.trace = 2 ∧ k1.inflight = [] ∧ ¬ k1.armed :=
  ⟨_, _, rfl, rfl, rfl, rfl, by decide, not_armed_of_inflight_nil _ (by decide)⟩

/-- C15, amended: starting from one initial arm that the USB core accepts, any
delivered sequence of N consecutive non-cancellation error completions results
in exactly N+1 submit attempts; and when every resubmission is accepted, the
sequence can be delivered to any length and after each of its completions the
pump's transfer is armed again. -/
theorem error_completions_rearm (dev : psvr2_device) (k k0 : Kernel) (tu : psvr2_input_urb)
    (urb : Nat) (cs : List Completion)
    (h1 : k.tracking_urb = some tu) (h2 : tu.urb = some urb) (hep : dev.input_ep ≠ 0)
    (harm : psvr2_input_submit_urb 0 dev k = some (0, k0))
    (herr : ∀ c ∈ cs, c.status ≠ 0 ∧ ¬ cancellation_class c.status) :
    (∀ kN, deliver_completions dev cs k0 = some kN →
      arm_attempts kN.trace = arm_attempts k.trace + (cs.length + 1)) ∧
    ((∀ c ∈ cs, c.usb_submit_urb_ret = 0) →
      ∀ n, n ≤ cs.length → ∃ k', deliver_completions dev (cs.take n) k0 = some k' ∧
        k'.armed ∧ arm_attempts k'.trace = arm_attempts k.trace + (n + 1)) := by
  obtain ⟨kr, hsub, htr, hfl, htu, -⟩ := submit_urb_rearm 0 dev k tu urb h1 h2 hep
  rw [hsub, Option.some.injEq, Prod.mk.injEq] at harm
  obtain ⟨-, hk0⟩ := harm
  subst hk0
  rw [if_pos rfl] at hfl
  have h0 : arm_attempts kr.trace = arm_attempts k.trace + 1 := by
    rw [htr, arm_attempts_append, (rearm_counts _ _ _ _ _).1]
  constructor
  · intro kN hN
    rw [error_completions_attempts dev tu urb hep h2 cs kr kN (htu.trans h1) herr hN, h0]
    omega
  · intro hacc n hn
    have herr' : ∀ c ∈ cs.take n, c.status ≠ 0 ∧ ¬ cancellation_class c.status :=
      fun c hc => herr c (List.mem_of_mem_take hc)
    have hacc' : ∀ c ∈ cs.take n, c.usb_submit_urb_ret = 0 :=
      fun c hc => hacc c (List.mem_of_mem_take hc)
    obtain ⟨k', hk', htu', hin'⟩ := error_completions_armed dev tu urb hep h2 (cs.take n) kr
      (htu.trans h1) (by rw [hfl]; exact List.mem_cons_self _ _) herr' hacc'
    refine ⟨k', hk', ⟨urb, pump_urb_eq k' tu urb htu' h2, hin'⟩, ?_⟩
    rw [error_completions_attempts dev tu urb hep h2 (cs.take n) kr k' (htu.trans h1) herr' hk',
      h0, List.length_take, Nat.min_eq_left hn]
    omega

/-- Instance of the amended C15: three protocol errors in a row, each resubmission
accepted, after the initial arm on the idle kernel state: 4 submit attempts, and the
pump is armed after each completion. -/
theorem error_completions_rearm_witness :
    ∃ k0, psvr2_input_submit_urb 0 (sample_device ⟨1, 0, 1, 0⟩) idle_kernel = some (0, k0) ∧
      (∀ kN, deliver_completions (sample_device ⟨1, 0, 1, 0⟩)
          [protocol_error 0, protocol_error 0, protocol_error 0] k0 = some kN →
        arm_attempts kN.trace = 4) ∧
      ∀ n, n ≤ 3 → ∃ k', deliver_completions (sample_device ⟨1, 0, 1, 0⟩)
          ([protocol_error 0, protocol_error 0, protocol_error 0].take n) k0 = some k' ∧
        k'.armed ∧ arm_attempts k'.trace = n + 1 := by
  have h := error_completions_rearm (sample_device ⟨1, 0, 1, 0⟩) idle_kernel _ _ 10
    [protocol_error 0, protocol_error 0, protocol_error 0] rfl rfl (by decide) rfl
    (by
      intro c hc
      simp only [List.mem_cons, List.mem_singleton, List.not_mem_nil, or_false, or_self] at hc
      subst hc
      exact ⟨by decide, by decide⟩)
  refine ⟨_, rfl, ?_, ?_⟩
  · intro kN hN
    exact h.1 kN hN
  · intro n hn
    obtain ⟨k', h1, h2, h3⟩ := h.2
      (by
        intro c hc
        simp only [List.mem_cons, List.mem_singleton, List.not_mem_nil, or_false, or_self] at hc
        subst hc
        rfl) n hn
    refine ⟨k', h1, h2, ?_⟩
    rw [h3]
    show 0 + (n + 1) = n + 1
    omega

/-! ### Outstanding transfers -/

/-- The two ways in which arming returns: at once with `-EINVAL` when there is no
streaming endpoint, or with the answer of `usb_submit_urb` after configuring the
pump's transfer, which is then in flight if the answer is 0. -/
theorem submit_urb_cases (sr : Int) (dev : psvr2_device) (k : Kernel) (r : Int) (k' : Kernel)
    (h : psvr2_input_submit_urb sr dev k = some (r, k')) :
    (dev.input_ep = 0 ∧ r = -EINVAL ∧ k' = k) ∨
    (dev.input_ep ≠ 0 ∧ r = sr ∧ ∃ tu urb, k.tracking_urb = some tu ∧ tu.urb = some urb ∧
      k'.inflight = (if sr = 0 then urb :: k.inflight else k.inflight) ∧
      k'.tracking_urb = k.tracking_urb ∧ k'.tracking_input_dev = k.tracking_input_dev) := by
  by_cases hep : dev.input_ep = 0
  · rw [submit_urb_no_endpoint sr dev k hep, Option.some.injEq, Prod.mk.injEq] at h
    exact Or.inl ⟨hep, h.1.symm, h.2.symm⟩
  · right
    cases h1 : k.tracking_urb with
    | none =>
      unfold psvr2_input_submit_urb at h
      rw [if_neg hep] at h
      simp only [h1] at h
      exact absurd h (by simp)
    | some tu =>
      cases h2 : tu.urb with
      | none =>
        unfold psvr2_input_submit_urb at h
        rw [if_neg hep] at h
        simp only [h1, h2] at h
        exact absurd h (by simp)
      | some urb =>
        obtain ⟨kr, hsub, -, hfl, htu, hid⟩ := submit_urb_rearm sr dev k tu urb h1 h2 hep
        rw [hsub, Option.some.injEq, Prod.mk.injEq] at h
        obtain ⟨hr, hk⟩ := h
        subst hk
        exact ⟨hep, hr.symm, tu, urb, rfl, h2, hfl, htu.trans h1, hid⟩

/-- The two ways in which `psvr2_input_start` returns: with an error, the status
and what is in flight being as before; or with 0, `tracking_active` set and the
pump's transfer newly in flight. -/
theorem start_cases (cr sr : Int) (dev : psvr2_device) (k : Kernel) (r : Int)
    (dev' : psvr2_device) (k' : Kernel)
    (h : psvr2_input_start cr sr dev k = some (r, dev', k')) :
    (r ≠ 0 ∧ dev'.status = dev.status ∧ k'.inflight = k.inflight ∧
      k'.tracking_urb = k.tracking_urb) ∨
    (r = 0 ∧ dev'.status = { dev.status with tracking_active := 1 } ∧ dev.input_ep ≠ 0 ∧
      ∃ tu urb, k.tracking_urb = some tu ∧ tu.urb = some urb ∧
        k'.inflight = urb :: k.inflight ∧ k'.tracking_urb = k.tracking_urb) := by
  by_cases hcr : cr < 0
  · left
    unfold psvr2_input_start at h
    simp only [if_pos hcr, Option.some.injEq, Prod.mk.injEq] at h
    obtain ⟨hr, hd, hk⟩ := h
    subst hr hd hk
    exact ⟨by omega, rfl, rfl, rfl⟩
  · rw [start_after_command cr sr dev k (by omega)] at h
    split at h
    · exact absurd h (by simp)
    · rename_i ret k2 hs
      rcases submit_urb_cases _ _ _ _ _ hs with ⟨-, hret, hk2⟩ | ⟨hep, hret, tu, urb, h1, h2, hfl,
        htu, -⟩
      · left
        have hne : ret ≠ 0 := by rw [hret]; decide
        simp only [ne_eq, hne, not_false_eq_true, if_true, Option.some.injEq,
          Prod.mk.injEq] at h
        obtain ⟨hr, hd, hk⟩ := h
        subst hr hd hk
        rw [hk2]
        exact ⟨hne, rfl, rfl, rfl⟩
      · by_cases hne : ret = 0
        · right
          simp only [ne_eq, hne, not_true_eq_false, if_false, Option.some.injEq,
            Prod.mk.injEq] at h
          obtain ⟨hr, hd, hk⟩ := h
          subst hd hk
          rw [hne] at hret
          rw [if_pos hret.symm] at hfl
          exact ⟨hr.symm, rfl, hep, tu, urb, h1, h2, hfl, htu⟩
        · left
          simp only [ne_eq, hne, not_false_eq_true, if_true, Option.some.injEq,
            Prod.mk.injEq] at h
          obtain ⟨hr, hd, hk⟩ := h
          subst hr hd hk
          have hsr : sr ≠ 0 := by rw [← hret]; exact hne
          rw [if_neg hsr] at hfl
          exact ⟨hne, rfl, hfl, htu⟩

/-- What `psvr2_input_stop` does to the kernel state, whatever the stop command
returns: the pump's transfer, if there is one, is cancelled first, then the
command is sent; the pump's variables are left alone. -/
theorem stop_effect (cr : Int) (dev : psvr2_device) (k : Kernel) :
    (psvr2_input_stop cr dev k).2.2.tracking_urb = k.tracking_urb ∧
    (psvr2_input_stop cr dev k).2.2.tracking_input_dev = k.tracking_input_dev ∧
    (psvr2_input_stop cr dev k).2.2.inflight =
      (match k.pump_urb with
       | none => k.inflight
       | some urb => k.inflight.filter (fun u => u ≠ urb)) ∧
    (psvr2_input_stop cr dev k).2.2.trace = k.trace ++
      (match k.pump_urb with
       | none => []
       | some urb => [.usb_kill_urb urb]) ++
      [.usb_control_msg dev.udev 0x09 0x21 0x0301 0 [0x02] 1000 cr] := by
  unfold psvr2_input_stop Kernel.pump_urb
  cases h1 : k.tracking_urb with
  | none =>
    simp only [List.append_nil]
    split <;> exact ⟨h1, rfl, rfl, rfl⟩
  | some tu =>
    cases h2 : tu.urb with
    | none =>
      simp only [h2, List.append_nil]
      split <;> exact ⟨h1, rfl, rfl, rfl⟩
    | some urb =>
      simp only [h2]
      split <;>
        exact ⟨h1, rfl, rfl, by simp only [Kernel.call, Kernel.killed, List.append_assoc]; rfl⟩

/-- After `psvr2_input_stop` the pump's transfer is not in flight. -/
theorem stop_not_armed (cr : Int) (dev : psvr2_device) (k : Kernel) :
    ¬ (psvr2_input_stop cr dev k).2.2.armed := by
  obtain ⟨htu, -, hfl, -⟩ := stop_effect cr dev k
  rintro ⟨urb, hp, hin⟩
  have hp' : k.pump_urb = some urb := by
    unfold Kernel.pump_urb at hp ⊢
    rw [htu] at hp
    exact hp
  rw [hfl, hp'] at hin
  simp only [ne_eq, decide_not, List.mem_filter, Bool.not_eq_true', decide_eq_false_iff_not,
    not_true_eq_false, and_false] at hin

/-- Without the pump's transfer in flight no completion can be delivered. -/
theorem deliver_none_of_not_armed (c : Completion) (dev : psvr2_device) (k : Kernel)
    (h : ¬ k.armed) : deliver_completion c dev k = none := by
  unfold deliver_completion
  split
  · rfl
  · rename_i urb hp
    have hn : urb ∉ k.inflight := fun hin => h ⟨urb, hp, hin⟩
    rw [if_neg hn]

/-- What starting and stopping do to the transfer that the variable `tracking_urb`
refers to: when `psvr2_input_start` returns success from a state with nothing in
flight, exactly one transfer is in flight afterwards, and it is that transfer;
after `psvr2_input_stop`, whatever the stop command returned, that transfer is
not in flight, no completion of it can be delivered, and the cancel precedes the
stop command in the trace; when everything in flight was that transfer, nothing
at all is in flight after the stop; and a cancellation-class completion leaves
the kernel state as it is: it reports nothing and arms nothing. -/
theorem pump_outstanding (cr sr : Int) (dev : psvr2_device) (k : Kernel) :
    (k.inflight = [] → ∀ dev' k', psvr2_input_start cr sr dev k = some (0, dev', k') →
      k'.inflight.length = 1 ∧ k'.armed) ∧
    ¬ (psvr2_input_stop cr dev k).2.2.armed ∧
    (∀ c, deliver_completion c (psvr2_input_stop cr dev k).2.1
      (psvr2_input_stop cr dev k).2.2 = none) ∧
    (psvr2_input_stop cr dev k).2.2.trace = k.trace ++
      (match k.pump_urb with
       | none => []
       | some urb => [.usb_kill_urb urb]) ++
      [.usb_control_msg dev.udev 0x09 0x21 0x0301 0 [0x02] 1000 cr] ∧
    ((∀ u ∈ k.inflight, k.pump_urb = some u) →
      (psvr2_input_stop cr dev k).2.2.inflight = []) ∧
    (∀ status len data r d k0, cancellation_class status →
      psvr2_input_complete status len data r d k0 = some k0) := by
  refine ⟨?_, stop_not_armed cr dev k,
    fun c => deliver_none_of_not_armed c _ _ (stop_not_armed cr dev k),
    (stop_effect cr dev k).2.2.2, ?_, ?_⟩
  · intro hk dev' k' h
    rcases start_cases cr sr dev k 0 dev' k' h with ⟨hne, -⟩ | ⟨-, -, -, tu, urb, h1, h2, hfl,
      htu⟩
    · exact absurd rfl hne
    · rw [hk] at hfl
      refine ⟨by rw [hfl]; rfl, urb, pump_urb_eq k' tu urb (htu.trans h1) h2, ?_⟩
      rw [hfl]
      exact List.mem_singleton.mpr rfl
  · intro hown
    rw [(stop_effect cr dev k).2.2.1]
    cases hp : k.pump_urb with
    | none =>
      simp only
      cases hl : k.inflight with
      | nil => rfl
      | cons u rest =>
        have := hown u (by rw [hl]; exact List.mem_cons_self _ _)
        rw [hp] at this
        exact absurd this (by simp)
    | some urb =>
      simp only
      rw [List.filter_eq_nil_iff]
      intro u hu
      have := hown u hu
      rw [hp, Option.some.injEq] at this
      simp only [ne_eq, decide_not, Bool.not_eq_true', decide_eq_false_iff_not, not_not]
      exact this.symm
  · intro status len data r d k0 hc
    have hc' : status = -ECONNRESET ∨ status = -ENOENT ∨ status = -ESHUTDOWN := hc
    have hs : status ≠ 0 := by
      intro h0
      rw [h0] at hc
      exact not_cancellation_zero hc
    unfold psvr2_input_complete
    rw [if_neg hs, if_pos hc']

/-- A start on the idle kernel state puts the one transfer 10 in flight; a stop on
the armed kernel state, with the stop command timing out, leaves nothing in
flight and no completion to deliver. -/
theorem pump_outstanding_witness :
    (∃ dev' k', psvr2_input_start 1 0 (sample_device ⟨1, 0, 0, 0⟩) idle_kernel
        = some (0, dev', k') ∧ k'.inflight.length = 1 ∧ k'.armed) ∧
    (psvr2_input_stop (-110) (sample_device ⟨1, 0, 1, 0⟩) armed_kernel).2.2.inflight = [] ∧
    (∀ c, deliver_completion c (psvr2_input_stop (-110) (sample_device ⟨1, 0, 1, 0⟩)
      armed_kernel).2.1 (psvr2_input_stop (-110) (sample_device ⟨1, 0, 1, 0⟩)
      armed_kernel).2.2 = none) := by
  have hstart := (pump_outstanding 1 0 (sample_device ⟨1, 0, 0, 0⟩) idle_kernel).1 rfl _ _ rfl
  have hstop := (pump_outstanding (-110) 0 (sample_device ⟨1, 0, 1, 0⟩) armed_kernel).2
  refine ⟨⟨_, _, rfl, hstart⟩, hstop.2.2.2.1 ?_, hstop.2.1⟩
  intro u hu
  have : u = 10 := List.mem_singleton.mp hu
  subst this
  rfl

/-- C16 (the code departs from the claim): `psvr2_input_stop` cancels the transfer
that the file-scope variable `tracking_urb` refers to, which need not be the
transfer of the session it is called for. With the pump of the session at address
1 armed (transfer 10 in flight) and `psvr2_input_init` run since for the session
at address 20 (transfer 30, input device 32), a stop for the session at address 1
cancels transfer 30, sends the stop command, returns 0 and clears
`tracking_active`, and transfer 10 is still in flight; when transfer 10 then
completes with status 0 and the 14-byte sample payload, the handler publishes the
frame (seven reports, to input device 32) and submits transfer 30. -/
theorem stop_leaves_other_transfer :
    armed_kernel.pump_urb = some 10 ∧ armed_kernel.inflight = [10] ∧
    (sample_device ⟨1, 0, 1, 0⟩).addr ≠ second_device.addr ∧
    ∃ devB k2, psvr2_input_init second_input_env second_device armed_kernel
        = some (0, devB, k2) ∧
      k2.inflight = [30, 10] ∧ k2.pump_urb = some 30 ∧
      (psvr2_input_stop 1 (sample_device ⟨1, 0, 1, 0⟩) k2).1 = 0 ∧
      (psvr2_input_stop 1 (sample_device ⟨1, 0, 1, 0⟩) k2).2.1.status.tracking_active = 0 ∧
      (psvr2_input_stop 1 (sample_device ⟨1, 0, 1, 0⟩) k2).2.2.trace =
        k2.trace ++ [.usb_kill_urb 30, .usb_control_msg 2 0x09 0x21 0x0301 0 [0x02] 1000 1] ∧
      (psvr2_input_stop 1 (sample_device ⟨1, 0, 1, 0⟩) k2).2.2.inflight = [10] ∧
      (psvr2_input_stop 1 (sample_device ⟨1, 0, 1, 0⟩) k2).2.2.inflight.length ≠ 0 ∧
      ∃ k3, psvr2_input_complete 0 14 sample_payload 0
          (psvr2_input_stop 1 (sample_device ⟨1, 0, 1, 0⟩) k2).2.1
          ((psvr2_input_stop 1 (sample_device ⟨1, 0, 1, 0⟩) k2).2.2.completed 10) = some k3 ∧
        reports k3.trace =
          reports (psvr2_input_stop 1 (sample_device ⟨1, 0, 1, 0⟩) k2).2.2.trace + 7 ∧
        k3.trace = (psvr2_input_stop 1 (sample_device ⟨1, 0, 1, 0⟩) k2).2.2.trace ++
          [.input_report_abs 32 .ABS_X 10, .input_report_abs 32 .ABS_Y 20,
           .input_report_abs 32 .ABS_Z 30, .input_report_abs 32 .ABS_RX (-10),
           .input_report_abs 32 .ABS_RY (-20), .input_report_abs 32 .ABS_RZ (-30),
           .input_sync 32, .usb_fill_int_urb 30 2 0x81 (some 31) 64 1, .msleep 10,
           .usb_submit_urb 30 0] :=
  ⟨rfl, rfl, by decide, _, _, rfl, rfl, rfl, rfl, rfl, rfl, rfl, by decide,
    _, rfl, by decide, rfl⟩

/-! ### The status flag and the pump -/

/-- Acquisitions along a concatenation. -/
theorem acquired_append (t t' : List KCall) : acquired (t ++ t') = acquired t ++ acquired t' := by
  unfold acquired
  exact List.filterMap_append _ _ _

/-- Releases along a concatenation. -/
theorem released_append (t t' : List KCall) : released (t ++ t') = released t ++ released t' := by
  unfold released
  exact List.filterMap_append _ _ _

/-- Publication along a concatenation. -/
theorem publishes_append (t t' : List KCall) :
    publishes (t ++ t') = (publishes t || publishes t') := by
  unfold publishes
  exact List.any_append

/-- The calls of `psvr2_input_start` acquire nothing, release nothing and publish
nothing. -/
theorem start_trace (cr sr : Int) (dev : psvr2_device) (k : Kernel) (r : Int)
    (dev' : psvr2_device) (k' : Kernel)
    (h : psvr2_input_start cr sr dev k = some (r, dev', k')) :
    ∃ t, k'.trace = k.trace ++ t ∧ acquired t = [] ∧ released t = [] ∧
      publishes t = false := by
  by_cases hcr : cr < 0
  · unfold psvr2_input_start at h
    simp only [if_pos hcr, Option.some.injEq, Prod.mk.injEq] at h
    obtain ⟨-, -, hk⟩ := h
    subst hk
    exact ⟨_, rfl, rfl, rfl, rfl⟩
  · rw [start_after_command cr sr dev k (by omega)] at h
    split at h
    · exact absurd h (by simp)
    · rename_i ret k2 hs
      have hk' : k' = k2 := by
        split at h <;> simp only [Option.some.injEq, Prod.mk.injEq] at h <;> exact h.2.2.symm
      subst hk'
      by_cases hep : dev.input_ep = 0
      · have hep' : (start_command_sent cr dev k).1.input_ep = 0 := hep
        rw [submit_urb_no_endpoint sr _ _ hep', Option.some.injEq, Prod.mk.injEq] at hs
        rw [← hs.2]
        exact ⟨_, rfl, rfl, rfl, rfl⟩
      · rcases submit_urb_cases _ _ _ _ _ hs with ⟨h0, -⟩ | ⟨-, -, tu, urb, h1, h2, -⟩
        · exact absurd h0 hep
        · obtain ⟨kr, hsub, htr, -⟩ := submit_urb_rearm sr (start_command_sent cr dev k).1
            (start_command_sent cr dev k).2 tu urb h1 h2 hep
          rw [hsub, Option.some.injEq, Prod.mk.injEq] at hs
          rw [← hs.2, htr]
          refine ⟨[.usb_control_msg dev.udev 0x09 0x21 0x0301 0
              (Buffer.payload (Function.update dev.control_buffer 0 0x01) 1) 1000 cr,
            .usb_fill_int_urb urb dev.udev dev.input_ep tu.buffer 64 1, .msleep 10,
            .usb_submit_urb urb sr], ?_, rfl, rfl, rfl⟩
          simp only [start_command_sent, Kernel.call, List.append_assoc, List.singleton_append]

/-- The calls of `psvr2_input_init`: on success the tracking structure, the
transfer, its buffer and the input device are acquired and nothing is released;
on failure what was acquired is released in reverse order; nothing is published. -/
theorem input_init_trace (env : InputInitEnv) (dev : psvr2_device) (k : Kernel) (r : Int)
    (dev' : psvr2_device) (k' : Kernel) (h : psvr2_input_init env dev k = some (r, dev', k')) :
    ∃ t, k'.trace = k.trace ++ t ∧ publishes t = false ∧
      (r ≠ 0 → released t = (acquired t).reverse) ∧
      (r = 0 → acquired t = [.tracking_urb, .urb, .urb_buffer, .input_device] ∧
        released t = []) := by
  obtain ⟨kz, au, ac, ia, ir, cm, su⟩ := env
  cases kz
  · simp only [psvr2_input_init, Bool.not_false, if_true, Option.some.injEq,
      Prod.mk.injEq] at h
    obtain ⟨hr, -, hk⟩ := h
    subst hr hk
    exact ⟨[.kzalloc .tracking_urb false], rfl, rfl, fun _ => rfl,
      fun h0 => absurd h0 (by decide)⟩
  cases au with
  | none =>
    simp only [psvr2_input_init, Bool.not_true, Bool.false_eq_true, if_false, Option.some.injEq,
      Prod.mk.injEq] at h
    obtain ⟨hr, -, hk⟩ := h
    subst hr hk
    refine ⟨[.kzalloc .tracking_urb true, .usb_alloc_urb none, .kfree .tracking_urb], ?_, rfl,
      fun _ => rfl, fun h0 => absurd h0 (by decide)⟩
    simp only [input_init_error_urb_alloc, Kernel.call, List.append_assoc, List.singleton_append,
      List.cons_append, List.nil_append]
  | some urb =>
    cases ac with
    | none =>
      simp only [psvr2_input_init, Bool.not_true, Bool.false_eq_true, if_false,
        Option.some.injEq, Prod.mk.injEq] at h
      obtain ⟨hr, -, hk⟩ := h
      subst hr hk
      refine ⟨[.kzalloc .tracking_urb true, .usb_alloc_urb (some urb),
        .usb_alloc_coherent dev.udev none, .usb_free_urb urb, .kfree .tracking_urb], ?_, rfl,
        fun _ => rfl, fun h0 => absurd h0 (by decide)⟩
      simp only [input_init_error_buffer_alloc, input_init_error_urb_alloc, Kernel.call,
        List.append_assoc, List.singleton_append, List.cons_append, List.nil_append,
        Option.map_none']
    | some buffer =>
      cases ia with
      | none =>
        simp only [psvr2_input_init, Bool.not_true, Bool.false_eq_true, if_false,
          Option.some.injEq, Prod.mk.injEq] at h
        obtain ⟨hr, -, hk⟩ := h
        subst hr hk
        refine ⟨[.kzalloc .tracking_urb true, .usb_alloc_urb (some urb),
          .usb_alloc_coherent dev.udev (some buffer.1), .input_allocate_device none,
          .usb_free_coherent dev.udev (some buffer.1) buffer.2, .usb_free_urb urb,
          .kfree .tracking_urb], ?_, rfl, fun _ => rfl, fun h0 => absurd h0 (by decide)⟩
        simp only [input_init_error_input_alloc, input_init_error_buffer_alloc,
          input_init_error_urb_alloc, Kernel.call, List.append_assoc, List.singleton_append,
          List.cons_append, List.nil_append, Option.map_some']
      | some idev =>
        by_cases hir : ir = 0
        · subst hir
          simp only [psvr2_input_init, Bool.not_true, Bool.false_eq_true, if_false, ne_eq,
            not_true_eq_false, Option.map_some', Option.getD_some] at h
          split at h
          · exact absurd h (by simp)
          · rename_i ret dev2 k2 heq
            obtain ⟨ts, hts, hta, htr, htp⟩ := start_trace _ _ _ _ _ _ _ heq
            simp only [Kernel.call, List.append_assoc, List.singleton_append,
              List.cons_append, List.nil_append] at hts
            have hdu : dev2.udev = dev.udev := by
              have hf := start_frame _ _ _ _ _ heq
              simp only at hf
              rw [hf]
            by_cases hret : ret = 0
            · simp only [hret, not_true_eq_false, if_false, Option.some.injEq,
                Prod.mk.injEq] at h
              obtain ⟨hr, -, hk⟩ := h
              subst hr hk
              refine ⟨[.kzalloc .tracking_urb true, .usb_alloc_urb (some urb),
                .usb_alloc_coherent dev.udev (some buffer.1),
                .input_allocate_device (some idev), .input_register_device idev 0] ++ ts,
                ?_, ?_, fun h0 => absurd rfl h0, fun _ => ⟨?_, ?_⟩⟩
              · rw [hts]
                rfl
              · rw [publishes_append, htp]
                rfl
              · rw [acquired_append, hta]
                rfl
              · rw [released_append, htr]
                rfl
            · simp only [hret, not_false_eq_true, if_true, Option.some.injEq,
                Prod.mk.injEq] at h
              obtain ⟨hr, -, hk⟩ := h
              subst hr hk
              refine ⟨[.kzalloc .tracking_urb true, .usb_alloc_urb (some urb),
                .usb_alloc_coherent dev.udev (some buffer.1),
                .input_allocate_device (some idev), .input_register_device idev 0] ++ ts ++
                [.input_unregister_device idev,
                 .usb_free_coherent dev.udev (some buffer.1) buffer.2, .usb_free_urb urb,
                 .kfree .tracking_urb],
                ?_, ?_, fun _ => ?_, fun h0 => absurd h0 hret⟩
              · simp only [input_init_error_input_alloc, input_init_error_buffer_alloc,
                  input_init_error_urb_alloc, Kernel.call, hts, hdu, List.append_assoc,
                  List.singleton_append, List.cons_append, List.nil_append]
              · rw [publishes_append, publishes_append, htp]
                rfl
              · rw [acquired_append, acquired_append, released_append, released_append, hta, htr]
                rfl
        · simp only [psvr2_input_init, Bool.not_true, Bool.false_eq_true, if_false, ne_eq, hir,
            not_false_eq_true, if_true, Option.map_some', Option.getD_some, Option.some.injEq,
            Prod.mk.injEq] at h
          obtain ⟨hr, -, hk⟩ := h
          subst hr hk
          refine ⟨[.kzalloc .tracking_urb true, .usb_alloc_urb (some urb),
            .usb_alloc_coherent dev.udev (some buffer.1),
            .input_allocate_device (some idev), .input_register_device idev ir,
            .input_free_device idev,
            .usb_free_coherent dev.udev (some buffer.1) buffer.2, .usb_free_urb urb,
            .kfree .tracking_urb], ?_, rfl, fun _ => rfl, fun h0 => absurd h0 hir⟩
          simp only [input_init_error_input_alloc, input_init_error_buffer_alloc,
            input_init_error_urb_alloc, Kernel.call, List.append_assoc, List.singleton_append,
            List.cons_append, List.nil_append]

/-- Nesting a balanced inner bring-up inside an exact rollback keeps it exact. -/
theorem exact_nest (A R Ai : List Resource) (hp : R.Perm A)
    (hs : R.map Resource.stage = (A.map Resource.stage).reverse) :
    (Ai.reverse ++ R).Perm (A ++ Ai) ∧
    (Ai.reverse ++ R).map Resource.stage = ((A ++ Ai).map Resource.stage).reverse := by
  constructor
  · exact ((List.reverse_perm Ai).append hp).trans List.perm_append_comm
  · rw [List.map_append, List.map_append, List.reverse_append, List.map_reverse, hs]

/-- Every way in which the probe can return on a serviced interface, when the two
buffer allocations succeed or fail together: if no session is published, the
calls made release exactly what was acquired, each resource once, in reverse
order of the bring-up stages, and `usb_set_intfdata` is not called. The display
step is a parameter. -/
theorem probe_with_rollback (display_init : psvr2_device → Int × psvr2_device) (env : ProbeEnv)
    (interface : usb_interface) (k : Kernel)
    (hn : interface.bInterfaceNumber.val = 0 ∨ interface.bInterfaceNumber.val = 3)
    (hbuf : env.kmalloc_control.isSome = env.kmalloc_input.isSome) :
    ∃ res t, psvr2_adapter_probe_with display_init env interface k = some res ∧
      res.k.trace = k.trace ++ t ∧
      (res.intfdata = none → rollback_exact t ∧ publishes t = false) := by
  have hc : ¬ (((interface.bInterfaceNumber.val : Nat) : Int) ≠ 0 ∧
      ((interface.bInterfaceNumber.val : Nat) : Int) ≠ 3) := by omega
  obtain ⟨kd, kc, ki, acr, ca, cc, dc, ie⟩ := env
  unfold psvr2_adapter_probe_with
  simp only [if_neg hc]
  cases kd with
  | none =>
    refine ⟨_, ?t0, rfl, ?htr0, ?hfail0⟩
    case htr0 =>
      simp only [probe_error_input, probe_error_display, probe_error_device, probe_error_class,
        probe_error_cdev, probe_error_dev_num, probe_error_buffers, psvr2_display_cleanup,
        Kernel.call, List.append_assoc, List.singleton_append, List.cons_append, List.nil_append]
      exact rfl
    case hfail0 =>
      intro _
      refine ⟨?_, rfl⟩
      unfold rollback_exact acquired released
      simp only [List.filterMap_cons, List.filterMap_nil, KCall.acquires, KCall.releases,
        Option.isSome_some, Option.isSome_none, Bool.false_eq_true, if_true, if_false]
      decide
  | some addr =>
    cases kc with
    | none =>
      cases ki with
      | some ib => exact absurd hbuf (by simp)
      | none =>
        refine ⟨_, ?t1, rfl, ?htr1, ?hfail1⟩
        case htr1 =>
          simp only [probe_error_input, probe_error_display, probe_error_device, probe_error_class,
            probe_error_cdev, probe_error_dev_num, probe_error_buffers, psvr2_display_cleanup,
            Kernel.call, List.append_assoc, List.singleton_append, List.cons_append, List.nil_append]
          exact rfl
        case hfail1 =>
          intro _
          refine ⟨?_, rfl⟩
          unfold rollback_exact acquired released
          simp only [List.filterMap_cons, List.filterMap_nil, KCall.acquires, KCall.releases,
            Option.isSome_some, Option.isSome_none, Bool.false_eq_true, if_true, if_false]
          decide
    | some cb =>
      cases ki with
      | none => exact absurd hbuf (by simp)
      | some ib =>
        simp only
        split
        · rename_i h1
          refine ⟨_, ?t2, rfl, ?htr2, ?hfail2⟩
          case htr2 =>
            simp only [probe_error_input, probe_error_display, probe_error_device, probe_error_class,
              probe_error_cdev, probe_error_dev_num, probe_error_buffers, psvr2_display_cleanup,
              Kernel.call, List.append_assoc, List.singleton_append, List.cons_append, List.nil_append]
            exact rfl
          case hfail2 =>
            intro _
            refine ⟨?_, rfl⟩
            unfold rollback_exact acquired released
            simp only [List.filterMap_cons, List.filterMap_nil, KCall.acquires, KCall.releases,
              Option.isSome_some, Option.isSome_none, Bool.false_eq_true, if_true, if_false, h1]
            decide
        · rename_i h1
          split
          · rename_i h2
            refine ⟨_, ?t3, rfl, ?htr3, ?hfail3⟩
            case htr3 =>
              simp only [probe_error_input, probe_error_display, probe_error_device, probe_error_class,
                probe_error_cdev, probe_error_dev_num, probe_error_buffers, psvr2_display_cleanup,
                Kernel.call, List.append_assoc, List.singleton_append, List.cons_append, List.nil_append]
              exact rfl
            case hfail3 =>
              intro _
              refine ⟨?_, rfl⟩
              unfold rollback_exact acquired released
              simp only [List.filterMap_cons, List.filterMap_nil, KCall.acquires, KCall.releases,
                Option.isSome_some, Option.isSome_none, Bool.false_eq_true, if_true, if_false, h1, h2]
              decide
          · rename_i h2
            split
            · rename_i h3
              refine ⟨_, ?t4, rfl, ?htr4, ?hfail4⟩
              case htr4 =>
                simp only [probe_error_input, probe_error_display, probe_error_device, probe_error_class,
                  probe_error_cdev, probe_error_dev_num, probe_error_buffers, psvr2_display_cleanup,
                  Kernel.call, List.append_assoc, List.singleton_append, List.cons_append, List.nil_append]
                exact rfl
              case hfail4 =>
                intro _
                refine ⟨?_, rfl⟩
                unfold rollback_exact acquired released
                simp only [List.filterMap_cons, List.filterMap_nil, KCall.acquires, KCall.releases,
                  Option.isSome_some, Option.isSome_none, Bool.false_eq_true, if_true, if_false, h1, h2, h3]
                decide
            · rename_i h3
              split
              · rename_i h4
                refine ⟨_, ?t5, rfl, ?htr5, ?hfail5⟩
                case htr5 =>
                  simp only [probe_error_input, probe_error_display, probe_error_device, probe_error_class,
                    probe_error_cdev, probe_error_dev_num, probe_error_buffers, psvr2_display_cleanup,
                    Kernel.call, List.append_assoc, List.singleton_append, List.cons_append, List.nil_append]
                  exact rfl
                case hfail5 =>
                  intro _
                  refine ⟨?_, rfl⟩
                  unfold rollback_exact acquired released
                  simp only [List.filterMap_cons, List.filterMap_nil, KCall.acquires, KCall.releases,
                    Option.isSome_some, Option.isSome_none, Bool.false_eq_true, if_true, if_false, h1, h2, h3, h4]
                  decide
              · rename_i h4
                split
                · rename_i h5
                  refine ⟨_, ?t6, rfl, ?htr6, ?hfail6⟩
                  case htr6 =>
                    simp only [probe_error_input, probe_error_display, probe_error_device, probe_error_class,
                      probe_error_cdev, probe_error_dev_num, probe_error_buffers, psvr2_display_cleanup,
                      Kernel.call, List.append_assoc, List.singleton_append, List.cons_append, List.nil_append]
                    exact rfl
                  case hfail6 =>
                    intro _
                    refine ⟨?_, rfl⟩
                    unfold rollback_exact acquired released
                    simp only [List.filterMap_cons, List.filterMap_nil, KCall.acquires, KCall.releases,
                      Option.isSome_some, Option.isSome_none, Bool.false_eq_true, if_true, if_false, h1, h2, h3, h4]
                    decide
                · rename_i h5
                  split
                  · rename_i heq
                    exact absurd heq (input_init_ne_none _ _ _)
                  · rename_i ret dev' k' heq
                    obtain ⟨ti, hti, hpi, hfi, -⟩ := input_init_trace _ _ _ _ _ _ heq
                    simp only [Kernel.call, List.append_assoc, List.singleton_append,
                      List.cons_append, List.nil_append] at hti
                    split
                    · rename_i h6
                      have hne : ret ≠ 0 := by omega
                      refine ⟨_, [.kzalloc .session true, .mutex_init addr,
                        .usb_get_dev interface.udev, .kmalloc .control_buffer true,
                        .kmalloc .input_buffer true, .alloc_chrdev_region acr.1, .cdev_init,
                        .cdev_add acr.2 ca, .class_create cc, .device_create cc acr.2 dc] ++ ti ++
                        [.device_destroy (psvr2_display_cleanup dev').class_ptr
                          (psvr2_display_cleanup dev').dev_num,
                         .class_destroy (psvr2_display_cleanup dev').class_ptr, .cdev_del,
                         .unregister_chrdev_region (psvr2_display_cleanup dev').dev_num,
                         .kfree .control_buffer, .kfree .input_buffer,
                         .usb_put_dev (psvr2_display_cleanup dev').udev,
                         .mutex_destroy (psvr2_display_cleanup dev').addr, .kfree .session],
                        rfl, ?_, fun _ => ⟨?_, ?_⟩⟩
                      · simp only [probe_error_input, probe_error_display, probe_error_device,
                          probe_error_class, probe_error_cdev, probe_error_dev_num,
                          probe_error_buffers, Kernel.call, hti, Option.isSome_some,
                          List.append_assoc, List.singleton_append, List.cons_append,
                          List.nil_append]
                      · unfold rollback_exact
                        rw [acquired_append, acquired_append, released_append, released_append,
                          hfi hne]
                        simp only [acquired, released, List.filterMap_cons, List.filterMap_nil,
                          KCall.acquires, KCall.releases, h1, h2, h3, h4, if_false,
                          Bool.false_eq_true, List.append_nil, List.nil_append]
                        exact exact_nest _ _ _ (by decide) (by decide)
                      · rw [publishes_append, publishes_append, hpi]
                        rfl
                    · refine ⟨_, [.kzalloc .session true, .mutex_init addr,
                        .usb_get_dev interface.udev, .kmalloc .control_buffer true,
                        .kmalloc .input_buffer true, .alloc_chrdev_region acr.1, .cdev_init,
                        .cdev_add acr.2 ca, .class_create cc, .device_create cc acr.2 dc] ++ ti ++
                        [.usb_set_intfdata interface.addr dev'.addr],
                        rfl, ?_, fun hnone => absurd hnone (by simp)⟩
                      simp only [Kernel.call, hti, Option.isSome_some, List.append_assoc,
                        List.singleton_append, List.cons_append, List.nil_append]

/-! ### Failures during attach -/

/-- C11 (the code departs from the claim): when the allocation of the input
buffer fails after that of the control buffer succeeded, the probe returns
`-ENOMEM` through label `error_buffers`, which frees neither buffer: the control
buffer is acquired and never released; likewise the input buffer when the
allocation of the control buffer fails. -/
theorem probe_leaks_buffer :
    (∃ res, psvr2_adapter_probe input_buffer_fails_env (sample_interface 0 two_in_two_out)
        boot_kernel = some res ∧ res.ret = -12 ∧ res.intfdata = none ∧
      res.k.trace = [.kzalloc .session true, .mutex_init 1, .usb_get_dev 2,
        .kmalloc .control_buffer true, .kmalloc .input_buffer false,
        .usb_put_dev 2, .mutex_destroy 1, .kfree .session] ∧
      acquired res.k.trace = [.session, .lock, .device_handle, .control_buffer] ∧
      released res.k.trace = [.device_handle, .lock, .session] ∧
      Resource.control_buffer ∉ released res.k.trace ∧ ¬ rollback_exact res.k.trace) ∧
    (∃ res, psvr2_adapter_probe control_buffer_fails_env (sample_interface 0 two_in_two_out)
        boot_kernel = some res ∧ res.ret = -12 ∧ res.intfdata = none ∧
      acquired res.k.trace = [.session, .lock, .device_handle, .input_buffer] ∧
      released res.k.trace = [.device_handle, .lock, .session] ∧
      Resource.input_buffer ∉ released res.k.trace ∧ ¬ rollback_exact res.k.trace) :=
  ⟨⟨_, rfl, rfl, rfl, rfl, rfl, rfl, by decide, by decide⟩,
   ⟨_, rfl, rfl, rfl, rfl, rfl, by decide, by decide⟩⟩

/-- C12 (the code departs from the claim): when `device_create` fails with
`ERR_PTR(-ENOMEM)` = -12 after `class_create` returned the valid pointer
0xffff888004a3c000, the probe returns 77840384, the low 32 bits of the class
pointer, and not the error -12 of the failing step. -/
theorem probe_device_create_error_value :
    ∃ res, psvr2_adapter_probe device_create_fails_env (sample_interface 0 two_in_two_out)
        boot_kernel = some res ∧
      IS_ERR device_create_fails_env.class_create = false ∧
      IS_ERR device_create_fails_env.device_create = true ∧
      long_to_int device_create_fails_env.device_create = -12 ∧
      res.ret = 77840384 ∧ res.ret = long_to_int device_create_fails_env.class_create ∧
      res.ret ≠ -12 ∧ res.intfdata = none :=
  ⟨_, rfl, by decide, by decide, by decide, by decide, by decide, by decide, rfl⟩


/-- An error pointer read as an `int` is the error itself. -/
theorem long_to_int_of_is_err (p : Int) (h : IS_ERR p = true) : long_to_int p = p := by
  unfold IS_ERR at h
  simp only [decide_eq_true_eq] at h
  unfold long_to_int
  omega

/-- The value returned when `class_create` or `device_create` fails, the earlier
steps having succeeded: `class_create`'s own error in the first case, and in the
second case again the class pointer cut to an `int`, whatever `device_create`
returned. -/
theorem probe_ptr_err (env : ProbeEnv) (interface : usb_interface) (k : Kernel) (addr : Nat)
    (cb ib : Buffer)
    (hn : interface.bInterfaceNumber.val = 0 ∨ interface.bInterfaceNumber.val = 3)
    (hkd : env.kzalloc_dev = some addr) (hkc : env.kmalloc_control = some cb)
    (hki : env.kmalloc_input = some ib) (h1 : 0 ≤ env.alloc_chrdev_region.1)
    (h2 : 0 ≤ env.cdev_add) :
    (IS_ERR env.class_create = true →
      ∃ res, psvr2_adapter_probe env interface k = some res ∧ res.ret = env.class_create) ∧
    (IS_ERR env.class_create = false → IS_ERR env.device_create = true →
      ∃ res, psvr2_adapter_probe env interface k = some res ∧
        res.ret = long_to_int env.class_create) := by
  have hc : ¬ (((interface.bInterfaceNumber.val : Nat) : Int) ≠ 0 ∧
      ((interface.bInterfaceNumber.val : Nat) : Int) ≠ 3) := by omega
  have h1' : ¬ env.alloc_chrdev_region.1 < 0 := by omega
  have h2' : ¬ env.cdev_add < 0 := by omega
  constructor
  · intro h3
    unfold psvr2_adapter_probe psvr2_adapter_probe_with
    simp only [if_neg hc, hkd, hkc, hki, if_neg h1', if_neg h2', h3, if_true]
    exact ⟨_, rfl, long_to_int_of_is_err _ h3⟩
  · intro h3 h4
    unfold psvr2_adapter_probe psvr2_adapter_probe_with
    simp only [if_neg hc, hkd, hkc, hki, if_neg h1', if_neg h2', h3, h4, if_true,
      Bool.false_eq_true, if_false]
    exact ⟨_, rfl, rfl⟩

/-- C19: when the display step fails (simulated: `psvr2_display_init` as written
always returns 0) after all earlier steps succeeded, the probe returns the error
of the display step, publishes no session and does not call `usb_set_intfdata`;
the nine resources acquired before the failure (session structure, lock, device
handle, both buffers, device number, cdev, class, device file) are released by
nine rollback calls, each resource once, in reverse order of the bring-up stages;
the pump's variables are untouched. -/
theorem probe_display_init_failure (display_init : psvr2_device → Int × psvr2_device)
    (env : ProbeEnv) (interface : usb_interface) (k : Kernel) (addr : Nat) (cb ib : Buffer)
    (hn : interface.bInterfaceNumber.val = 0 ∨ interface.bInterfaceNumber.val = 3)
    (hkd : env.kzalloc_dev = some addr) (hkc : env.kmalloc_control = some cb)
    (hki : env.kmalloc_input = some ib) (h1 : 0 ≤ env.alloc_chrdev_region.1)
    (h2 : 0 ≤ env.cdev_add) (h3 : IS_ERR env.class_create = false)
    (h4 : IS_ERR env.device_create = false) (hdis : ∀ d, (display_init d).1 < 0) :
    ∃ res t, psvr2_adapter_probe_with display_init env interface k = some res ∧
      res.ret < 0 ∧ (∃ d, res.ret = (display_init d).1) ∧ res.intfdata = none ∧
      res.k.trace = k.trace ++ t ∧
      acquired t = [.session, .lock, .device_handle, .control_buffer, .input_buffer, .dev_num,
        .cdev, .device_class, .device_file] ∧
      released t = [.device_file, .device_class, .cdev, .dev_num, .control_buffer,
        .input_buffer, .device_handle, .lock, .session] ∧
      (released t).length = 9 ∧ (released t).length = (acquired t).length ∧
      rollback_exact t ∧ publishes t = false ∧
      res.k.tracking_urb = k.tracking_urb ∧ res.k.tracking_input_dev = k.tracking_input_dev ∧
      res.k.inflight = k.inflight := by
  have hc : ¬ (((interface.bInterfaceNumber.val : Nat) : Int) ≠ 0 ∧
      ((interface.bInterfaceNumber.val : Nat) : Int) ≠ 3) := by omega
  have h1' : ¬ env.alloc_chrdev_region.1 < 0 := by omega
  have h2' : ¬ env.cdev_add < 0 := by omega
  unfold psvr2_adapter_probe_with
  simp only [if_neg hc, hkd, hkc, hki, if_neg h1', if_neg h2', h3, h4, Bool.false_eq_true,
    if_false, if_pos (hdis _)]
  refine ⟨_, ?t, rfl, hdis _, ⟨_, rfl⟩, rfl, ?htr, ?ha, ?hr, ?hl, ?hl2, ?hex, ?hp, ?g1, ?g2, ?g3⟩
  case g1 =>
    simp only [probe_error_display, probe_error_device, probe_error_class, probe_error_cdev,
      probe_error_dev_num, probe_error_buffers, Kernel.call]
  case g2 =>
    simp only [probe_error_display, probe_error_device, probe_error_class, probe_error_cdev,
      probe_error_dev_num, probe_error_buffers, Kernel.call]
  case g3 =>
    simp only [probe_error_display, probe_error_device, probe_error_class, probe_error_cdev,
      probe_error_dev_num, probe_error_buffers, Kernel.call]
  case htr =>
    simp only [probe_error_display, probe_error_device, probe_error_class, probe_error_cdev,
      probe_error_dev_num, probe_error_buffers, Kernel.call, List.append_assoc,
      List.singleton_append, List.cons_append, List.nil_append]
    exact rfl
  case ha =>
    simp only [acquired, List.filterMap_cons, List.filterMap_nil, KCall.acquires,
      Option.isSome_some, h1', h2', h3, h4, Bool.false_eq_true, if_false]
  case hr =>
    simp only [released, List.filterMap_cons, List.filterMap_nil, KCall.releases]
  case hl =>
    simp only [released, List.filterMap_cons, List.filterMap_nil, KCall.releases,
      List.length_cons, List.length_nil]
  case hl2 =>
    simp only [acquired, released, List.filterMap_cons, List.filterMap_nil, KCall.acquires,
      KCall.releases, Option.isSome_some, h1', h2', h3, h4, Bool.false_eq_true, if_false,
      List.length_cons, List.length_nil]
  case hex =>
    unfold rollback_exact
    simp only [acquired, released, List.filterMap_cons, List.filterMap_nil, KCall.acquires,
      KCall.releases, Option.isSome_some, h1', h2', h3, h4, Bool.false_eq_true, if_false]
    decide
  case hp => rfl

/-- Instance of C19: the display step fails with -5 on interface 0 from the boot
state; the probe returns -5 and its nineteen calls end with the nine releases. -/
theorem probe_display_init_failure_witness :
    ∃ res t, psvr2_adapter_probe_with failing_display_init sample_env
        (sample_interface 0 two_in_two_out) boot_kernel = some res ∧
      res.ret = -5 ∧ res.intfdata = none ∧ res.k.trace = boot_kernel.trace ++ t ∧
      (released t).length = 9 ∧ (acquired t).length = 9 ∧ rollback_exact t ∧
      publishes t = false := by
  obtain ⟨res, t, h1, -, ⟨d, h3⟩, h4, h5, -, -, h8, h9, h10, h11, -⟩ :=
    probe_display_init_failure failing_display_init sample_env
      (sample_interface 0 two_in_two_out) boot_kernel 1 (fun _ => 0) (fun _ => 0)
      (Or.inl rfl) rfl rfl rfl (by decide) (by decide) (by decide) (by decide)
      (fun _ => show (-5 : Int) < 0 by decide)
  exact ⟨res, t, h1, h3, h4, h5, h8, by rw [← h9, h8], h10, h11⟩

/-! ### Detach -/

/-- C18 (the code departs from the claim): the pump's transfer, its buffer and the
input device are held in the two file-scope variables `tracking_urb` and
`tracking_input_dev`, not in the session. With the pump of the session at address
1 set up and armed (transfer 10, buffer 11, input device 12), the clean-up of
another session, at address 20, cancels and frees transfer 10, frees buffer 11
through the other session's device and unregisters input device 12; and the
initialisation for the other session overwrites both variables with its own
transfer 30, buffer 31 and input device 32 and releases nothing, so that transfer
10 stays in flight with no reference left to it. -/
theorem pump_state_shared :
    second_device.addr ≠ (sample_device ⟨1, 0, 0, 0⟩).addr ∧
    armed_kernel.tracking_urb = some { dev := 1, urb := some 10, buffer := some 11, dma := 0 } ∧
    armed_kernel.tracking_input_dev = some 12 ∧ armed_kernel.inflight = [10] ∧
    (psvr2_input_cleanup 1 second_device armed_kernel).2.trace =
      [.usb_kill_urb 10, .usb_control_msg 21 0x09 0x21 0x0301 0 [0x02] 1000 1,
       .input_unregister_device 12, .usb_free_coherent 21 (some 11) 0, .usb_free_urb 10,
       .kfree .tracking_urb] ∧
    (psvr2_input_cleanup 1 second_device armed_kernel).2.tracking_urb = none ∧
    (psvr2_input_cleanup 1 second_device armed_kernel).2.tracking_input_dev = none ∧
    (psvr2_input_cleanup 1 second_device armed_kernel).2.inflight = [] ∧
    (∃ dev k, psvr2_input_init second_input_env second_device armed_kernel = some (0, dev, k) ∧
      k.tracking_urb = some { dev := 20, urb := some 30, buffer := some 31, dma := 0 } ∧
      k.tracking_input_dev = some 32 ∧ k.inflight = [30, 10] ∧ k.pump_urb = some 30 ∧
      released k.trace = []) :=
  ⟨by decide, rfl, rfl, rfl, rfl, rfl, rfl, rfl, ⟨_, _, rfl, rfl, rfl, rfl, rfl, rfl⟩⟩

/-! ### The ioctl handler and the session lock -/

/-- The calls of `psvr2_display_set_mode`: none, or one control transfer; the
address of the session stays. -/
theorem set_mode_calls (r : Int) (dev : psvr2_device) (k : Kernel) (mode : psvr2_mode) :
    ∃ mid, (psvr2_display_set_mode r dev k mode).2.2.trace = k.trace ++ mid ∧
      (mid = [] ∨ ∃ u data, mid = [.usb_control_msg u 0x09 0x21 0x0300 0 data 1000 r]) ∧
      (psvr2_display_set_mode r dev k mode).2.1.addr = dev.addr := by
  unfold psvr2_display_set_mode
  split
  · exact ⟨[], (List.append_nil _).symm, Or.inl rfl, rfl⟩
  · simp only
    split
    · exact ⟨_, rfl, Or.inr ⟨_, _, rfl⟩, rfl⟩
    · exact ⟨_, rfl, Or.inr ⟨_, _, rfl⟩, rfl⟩

/-- A lock call, calls that are not lock operations, and the unlock call take and
release the lock once each and leave it free. -/
theorem lock_bracket (addr : Nat) (mid : List KCall)
    (h : mid = [] ∨ (∃ st ret, mid = [.copy_to_user st ret]) ∨
      (∃ ret, mid = [.copy_from_user ret]) ∨
      (∃ ret u data cr, mid = [.copy_from_user ret,
        .usb_control_msg u 0x09 0x21 0x0300 0 data 1000 cr])) :
    lock_acquires addr ([.mutex_lock addr] ++ mid ++ [.mutex_unlock addr]) = 1 ∧
    lock_releases addr ([.mutex_lock addr] ++ mid ++ [.mutex_unlock addr]) = 1 ∧
    lock_acquires addr mid = 0 ∧ lock_releases addr mid = 0 ∧
    lock_held addr false ([.mutex_lock addr] ++ mid ++ [.mutex_unlock addr]) = false ∧
    lock_held addr true mid = true := by
  rcases h with h | ⟨st, ret, h⟩ | ⟨ret, h⟩ | ⟨ret, u, data, cr, h⟩ <;> subst h <;>
    simp [lock_acquires, lock_releases, lock_held]

/-- The four ways through the switch of `psvr2_adapter_ioctl`: the handler takes the
lock, makes the calls of the branch (a user-memory copy, and for SET_MODE with
the mode copied in the calls of `psvr2_display_set_mode`), and releases the lock. -/
theorem ioctl_calls (c2u cfu : Nat) (mode : psvr2_mode) (r : Int) (dev : psvr2_device)
    (k : Kernel) (cmd : Nat) :
    ∃ mid, (psvr2_adapter_ioctl c2u cfu mode r dev k cmd).2.2.trace =
        k.trace ++ ([.mutex_lock dev.addr] ++ mid ++ [.mutex_unlock dev.addr]) ∧
      (mid = [] ∨ (∃ st ret, mid = [.copy_to_user st ret]) ∨
        (∃ ret, mid = [.copy_from_user ret]) ∨
        (∃ ret u data cr, mid = [.copy_from_user ret,
          .usb_control_msg u 0x09 0x21 0x0300 0 data 1000 cr])) ∧
      (¬ known_command cmd → mid = []) ∧ (cmd = PSVR2_IOCTL_RESET → mid = []) := by
  unfold psvr2_adapter_ioctl
  by_cases h1 : cmd = PSVR2_IOCTL_GET_STATUS
  · have hk : known_command cmd := Or.inl h1
    have h3 : cmd ≠ PSVR2_IOCTL_RESET := by
      rw [h1]
      decide
    simp only [if_pos h1]
    refine ⟨[.copy_to_user dev.status c2u], ?_, Or.inr (Or.inl ⟨_, _, rfl⟩),
      fun hn => absurd hk hn, fun hr => absurd hr h3⟩
    split <;> simp only [Kernel.call, List.append_assoc, List.singleton_append,
      List.cons_append, List.nil_append]
  · by_cases h2 : cmd = PSVR2_IOCTL_SET_MODE
    · have hk : known_command cmd := Or.inr (Or.inl h2)
      have h3 : cmd ≠ PSVR2_IOCTL_RESET := by
        rw [h2]
        decide
      simp only [if_neg h1, if_pos h2]
      by_cases hc : cfu = 0
      · obtain ⟨mid, hm, hmid, ha⟩ := set_mode_calls r dev
          ((k.call (.mutex_lock dev.addr)).call (.copy_from_user cfu)) mode
        simp only [hc, ne_eq, not_true_eq_false, if_false]
        rw [hc] at hm ha
        generalize psvr2_display_set_mode r dev
          ((k.call (.mutex_lock dev.addr)).call (.copy_from_user 0)) mode = res at hm ha
        obtain ⟨ret, dev', k'⟩ := res
        simp only at hm ha
        refine ⟨.copy_from_user 0 :: mid, ?_, ?_, fun hn => absurd hk hn,
          fun hr => absurd hr h3⟩
        · split <;> simp only [Kernel.call, hm, ha, List.append_assoc, List.singleton_append,
            List.cons_append, List.nil_append]
        · rcases hmid with hmid | ⟨u, data, hmid⟩
          · exact Or.inr (Or.inr (Or.inl ⟨0, by rw [hmid]⟩))
          · exact Or.inr (Or.inr (Or.inr ⟨0, u, data, r, by rw [hmid]⟩))
      · simp only [ne_eq, hc, not_false_eq_true, if_true]
        refine ⟨[.copy_from_user cfu], ?_, Or.inr (Or.inr (Or.inl ⟨_, rfl⟩)),
          fun hn => absurd hk hn, fun hr => absurd hr h3⟩
        simp only [Kernel.call, List.append_assoc, List.singleton_append,
          List.cons_append, List.nil_append]
    · by_cases h3 : cmd = PSVR2_IOCTL_RESET
      · simp only [if_neg h1, if_neg h2, if_pos h3]
        refine ⟨[], ?_, Or.inl rfl, fun _ => rfl, fun _ => rfl⟩
        simp only [Kernel.call, List.append_assoc, List.singleton_append,
          List.cons_append, List.nil_append, List.append_nil]
      · simp only [if_neg h1, if_neg h2, if_neg h3]
        refine ⟨[], ?_, Or.inl rfl, fun _ => rfl, fun _ => rfl⟩
        simp only [Kernel.call, List.append_assoc, List.singleton_append,
          List.cons_append, List.nil_append, List.append_nil]

/-- The value and the session that `psvr2_adapter_ioctl` returns for RESET and for
a command code that it does not know. -/
theorem ioctl_other (c2u cfu : Nat) (mode : psvr2_mode) (r : Int) (dev : psvr2_device)
    (k : Kernel) (cmd : Nat) :
    (¬ known_command cmd →
      (psvr2_adapter_ioctl c2u cfu mode r dev k cmd).1 = -ENOTTY ∧
      (psvr2_adapter_ioctl c2u cfu mode r dev k cmd).2.1 = dev) ∧
    (cmd = PSVR2_IOCTL_RESET →
      (psvr2_adapter_ioctl c2u cfu mode r dev k cmd).1 = 0 ∧
      (psvr2_adapter_ioctl c2u cfu mode r dev k cmd).2.1 = dev) := by
  constructor
  · intro hn
    have h1 : cmd ≠ PSVR2_IOCTL_GET_STATUS := fun h => hn (Or.inl h)
    have h2 : cmd ≠ PSVR2_IOCTL_SET_MODE := fun h => hn (Or.inr (Or.inl h))
    have h3 : cmd ≠ PSVR2_IOCTL_RESET := fun h => hn (Or.inr (Or.inr h))
    unfold psvr2_adapter_ioctl
    simp only [if_neg h1, if_neg h2, if_neg h3]
    exact ⟨trivial, trivial⟩
  · intro h3
    have h1 : cmd ≠ PSVR2_IOCTL_GET_STATUS := by
      rw [h3]
      decide
    have h2 : cmd ≠ PSVR2_IOCTL_SET_MODE := by
      rw [h3]
      decide
    unfold psvr2_adapter_ioctl
    simp only [if_neg h1, if_neg h2, if_pos h3]
    exact ⟨trivial, trivial⟩

/-- C21: for every command code and every outcome of the two user-memory copies
and of the mode change, the calls of `psvr2_adapter_ioctl` are `mutex_lock` on the
session's lock, calls that are not lock operations, and `mutex_unlock` on the
same lock: the lock is taken once, released once, held in between and free on
return. For a command code other than GET_STATUS, SET_MODE and RESET the handler
returns `-ENOTTY`; in that case and for RESET (which returns 0) no call is made
between lock and unlock and the session, `status` and `current_mode` included, is
returned as it was. -/
theorem ioctl_lock_balanced (c2u cfu : Nat) (mode : psvr2_mode) (r : Int) (dev : psvr2_device)
    (k : Kernel) (cmd : Nat) :
    (∃ mid, (psvr2_adapter_ioctl c2u cfu mode r dev k cmd).2.2.trace =
        k.trace ++ ([.mutex_lock dev.addr] ++ mid ++ [.mutex_unlock dev.addr]) ∧
      lock_acquires dev.addr ([.mutex_lock dev.addr] ++ mid ++ [.mutex_unlock dev.addr]) = 1 ∧
      lock_releases dev.addr ([.mutex_lock dev.addr] ++ mid ++ [.mutex_unlock dev.addr]) = 1 ∧
      lock_acquires dev.addr mid = 0 ∧ lock_releases dev.addr mid = 0 ∧
      lock_held dev.addr false
        ([.mutex_lock dev.addr] ++ mid ++ [.mutex_unlock dev.addr]) = false ∧
      lock_held dev.addr true mid = true ∧
      (¬ known_command cmd → mid = []) ∧ (cmd = PSVR2_IOCTL_RESET → mid = [])) ∧
    (¬ known_command cmd →
      (psvr2_adapter_ioctl c2u cfu mode r dev k cmd).1 = -ENOTTY ∧
      (psvr2_adapter_ioctl c2u cfu mode r dev k cmd).2.1.status = dev.status ∧
      (psvr2_adapter_ioctl c2u cfu mode r dev k cmd).2.1.current_mode = dev.current_mode ∧
      (psvr2_adapter_ioctl c2u cfu mode r dev k cmd).2.1 = dev) ∧
    (cmd = PSVR2_IOCTL_RESET →
      (psvr2_adapter_ioctl c2u cfu mode r dev k cmd).1 = 0 ∧
      (psvr2_adapter_ioctl c2u cfu mode r dev k cmd).2.1.status = dev.status ∧
      (psvr2_adapter_ioctl c2u cfu mode r dev k cmd).2.1.current_mode = dev.current_mode ∧
      (psvr2_adapter_ioctl c2u cfu mode r dev k cmd).2.1 = dev) := by
  obtain ⟨mid, htr, hmid, hn, hr⟩ := ioctl_calls c2u cfu mode r dev k cmd
  obtain ⟨b1, b2, b3, b4, b5, b6⟩ := lock_bracket dev.addr mid hmid
  obtain ⟨ho, hreset⟩ := ioctl_other c2u cfu mode r dev k cmd
  refine ⟨⟨mid, htr, b1, b2, b3, b4, b5, b6, hn, hr⟩, fun hk => ?_, fun hc => ?_⟩
  · obtain ⟨e1, e2⟩ := ho hk
    exact ⟨e1, by rw [e2], by rw [e2], e2⟩
  · obtain ⟨e1, e2⟩ := hreset hc
    exact ⟨e1, by rw [e2], by rw [e2], e2⟩

/-- Instance of C21: the command code 0x1234 on the sample session with tracking
running returns -25 with the session as it was after exactly the two calls
`mutex_lock 1`, `mutex_unlock 1`; and SET_MODE with the mode 2000x2040 at 90 Hz,
whose control transfer times out (-110), takes and releases the lock once each. -/
theorem ioctl_lock_balanced_witness :
    ¬ known_command 0x1234 ∧
    psvr2_adapter_ioctl 0 0 ⟨2000, 2040, 90, 0⟩ 0 (sample_device ⟨1, 0, 1, 0⟩) idle_kernel 0x1234
      = (-25, sample_device ⟨1, 0, 1, 0⟩,
          { idle_kernel with trace := [.mutex_lock 1, .mutex_unlock 1] }) ∧
    (psvr2_adapter_ioctl 0 0 ⟨2000, 2040, 90, 0⟩ 0 (sample_device ⟨1, 0, 1, 0⟩) idle_kernel
      0x1234).2.1.status = ⟨1, 0, 1, 0⟩ ∧
    ∃ mid, (psvr2_adapter_ioctl 0 0 ⟨2000, 2040, 90, 0⟩ (-110) (sample_device ⟨1, 0, 1, 0⟩)
        idle_kernel PSVR2_IOCTL_SET_MODE).2.2.trace =
        [.mutex_lock 1] ++ mid ++ [.mutex_unlock 1] ∧
      lock_acquires 1 ([.mutex_lock 1] ++ mid ++ [.mutex_unlock 1]) = 1 ∧
      lock_releases 1 ([.mutex_lock 1] ++ mid ++ [.mutex_unlock 1]) = 1 ∧
      lock_held 1 false ([.mutex_lock 1] ++ mid ++ [.mutex_unlock 1]) = false := by
  have hk : ¬ known_command 0x1234 := by decide
  have h := ioctl_lock_balanced 0 0 ⟨2000, 2040, 90, 0⟩ 0 (sample_device ⟨1, 0, 1, 0⟩)
    idle_kernel 0x1234
  obtain ⟨mid, htr, b1, b2, -, -, b5, -⟩ :=
    (ioctl_lock_balanced 0 0 ⟨2000, 2040, 90, 0⟩ (-110) (sample_device ⟨1, 0, 1, 0⟩)
      idle_kernel PSVR2_IOCTL_SET_MODE).1
  exact ⟨hk, rfl, (h.2.1 hk).2.1, mid, htr, b1, b2, b5⟩

end PSVR2
